import Mathlib

/-! PLSA-MP: block partitioning, message tags and the log-space EM step.

A shallow embedding of the parts of `plsa-defn.h` and `em-steps.c` that the
properties below talk about, followed by the properties themselves.

* `unsigned int` values are natural numbers; every operation that can leave
  the 32-bit range is reduced modulo `UINT_SIZE`.
* `PROBNODE` values live in an arbitrary linearly ordered field `α`; the libm
  functions the macros `DOEXP` and `DOLOGONE` call are the two fields of a
  `LibM α`.  The program calls `expf` and `log1pf`; `floatLibM` takes them as
  the correctly rounded single-precision functions, and the numerical bounds
  are proved for every library that is accurate to a given `ε`
  (`LibmAccurate`, `LibmRelative`), `Real.exp` and `Real.log` being the
  reference only.
* The six table pointers of `INFO` that `swapPrevCurr` exchanges are buffer
  numbers into per-table storage (`mem_w1`, `mem_w2`, `mem_z`); a table cell is
  read and written through its pointer.  Indices stay inside the allocated
  tables, so the index arithmetic `X * m + Y` is exact.
* The timing fields of `INFO` are not represented.
-/

namespace PLSA

/-! ## Definitions -/

/-- Number of values of an `unsigned int`. -/
def UINT_SIZE : Nat := 4294967296

/-- `#define BLOCK_LOW(id, p, n) ((id) * (n)/(p))`, in `unsigned int` arithmetic. -/
def BLOCK_LOW (id p n : Nat) : Nat := (id * n % UINT_SIZE) / p

/-- `#define BLOCK_HIGH(id, p, n) (BLOCK_LOW ((id)+1, p, n) - 1)`. -/
def BLOCK_HIGH (id p n : Nat) : Nat := (BLOCK_LOW (id + 1) p n + UINT_SIZE - 1) % UINT_SIZE

/-- `#define BLOCK_SIZE(id, p, n) (BLOCK_LOW ((id) + 1, p, n)-BLOCK_LOW(id, p, n))`. -/
def BLOCK_SIZE (id p n : Nat) : Nat :=
  (BLOCK_LOW (id + 1) p n + UINT_SIZE - BLOCK_LOW id p n) % UINT_SIZE

/-- `#define BLOCK_OWNER(index, p, n) (((p) * ((index)+1)-1)/(n))`. -/
def BLOCK_OWNER (index p n : Nat) : Nat :=
  ((p * ((index + 1) % UINT_SIZE) % UINT_SIZE + UINT_SIZE - 1) % UINT_SIZE) / n

/-- Cluster index `k` lies in the range
`[BLOCK_LOW(id,p,n), BLOCK_LOW(id,p,n) + BLOCK_SIZE(id,p,n))` of worker `id`. -/
def InBlock (id p n k : Nat) : Prop :=
  BLOCK_LOW id p n ≤ k ∧ k < BLOCK_LOW id p n + BLOCK_SIZE id p n

instance (id p n k : Nat) : Decidable (InBlock id p n k) := by
  unfold InBlock; infer_instance

/-- The ranges of the workers `0 .. p-1` partition `[0, n)`: every `k < n` lies
in the range of exactly one worker, and no range holds an index `≥ n`. -/
def IsBlockPartition (p n : Nat) : Prop :=
  (∀ k, k < n → ∃! i, i < p ∧ InBlock i p n k) ∧
  (∀ i k, i < p → InBlock i p n k → k < n)

/-- Worker `w` is a worker id, `BLOCK_LOW(w) ≤ k < BLOCK_LOW(w+1)`, and no other
worker id has that property. -/
def IsBlockOwner (w p n k : Nat) : Prop :=
  w < p ∧ (BLOCK_LOW w p n ≤ k ∧ k < BLOCK_LOW (w + 1) p n) ∧
  ∀ i, i < p → BLOCK_LOW i p n ≤ k → k < BLOCK_LOW (i + 1) p n → i = w

/-- `#define MAX_CLUSTERS 1000`. -/
def MAX_CLUSTERS : Nat := 1000

/-- `#define MSG_TAG(X,Y,Z) ((X * 10000) + (Y * MAX_CLUSTERS) + Z)`, with `X` the
`unsigned int` iteration counter: the sum is an `unsigned int`. -/
def MSG_TAG (X Y Z : Nat) : Nat := (X * 10000 + Y * MAX_CLUSTERS + Z) % UINT_SIZE

/-- A message kind is one of `TAG_PROBW1_Z = 1` ... `TAG_PROBW1W2 = 5`. -/
def IsMessageKind (Y : Nat) : Prop := 1 ≤ Y ∧ Y ≤ 5

instance (Y : Nat) : Decidable (IsMessageKind Y) := by
  unfold IsMessageKind; infer_instance

/-- The functions of the C maths library behind `DOEXP` and `DOLOGONE`. -/
structure LibM (α : Type) where
  /-- `#define DOEXP(X) (expf (X))`. -/
  DOEXP : α → α
  /-- `#define DOLOGONE(X) (log1pf (X))`. -/
  DOLOGONE : α → α

section Generic

variable {α : Type} [LinearOrderedField α]

/-- `#define LN_LIMIT 23.02585093`. -/
def LN_LIMIT : α := 2302585093 / 100000000

/-- `#define DOLOG1PEXP(x) DOLOGONE(DOEXP(x))`. -/
def DOLOG1PEXP (M : LibM α) (x : α) : α := M.DOLOGONE (M.DOEXP x)

/-- The macro `logSumsInline(A,B)`: the pair of the values of `A` and `B` after
the block has run. -/
def logSumsInline (M : LibM α) (A B : α) : α × α :=
  let x := if A > B then A else B
  let y := if A > B then B else A
  (if |y - x| > LN_LIMIT then x else x + DOLOG1PEXP M (y - x), B)

/-- `typedef struct cooccur`. -/
structure COOCCUR (α : Type) where
  /-- The co-occurrence count, as a log value. -/
  x : α
  /-- Column position of this value. -/
  column : Nat

/-- `typedef struct info`: the dimensions, the co-occurrence rows, the table
pointers and the storage they point into. -/
structure INFO (α : Type) where
  num_clusters : Nat
  m : Nat
  n : Nat
  /-- Row `W` holds its number of entries in `cos[W][0].column` and its entries
  in `cos[W][1 ..]`. -/
  cos : Nat → Nat → COOCCUR α
  probw1_z_curr : Nat
  probw2_z_curr : Nat
  probz_curr : Nat
  probw1_z_prev : Nat
  probw2_z_prev : Nat
  probz_prev : Nat
  /-- The joint matrix `P(w1,w2)`; its pointer is never reassigned. -/
  prob_w1w2 : Nat → α
  block_size : Nat
  /-- Storage of the `P(w1|z)` buffers, by buffer number. -/
  mem_w1 : Nat → Nat → α
  /-- Storage of the `P(w2|z)` buffers, by buffer number. -/
  mem_w2 : Nat → Nat → α
  /-- Storage of the `P(z)` buffers, by buffer number. -/
  mem_z : Nat → Nat → α
  /-- Verbose output?  -/
  verbose : Bool := false
  /-- Suppress output. -/
  no_output : Bool := false
  /-- Random seed. -/
  seed : Nat := 0
  /-- Base filename for the output file; `none` is `NULL`. -/
  base_fn : Option String := none
  /-- Co-occurrence filename; `none` is `NULL`. -/
  co_fn : Option String := none
  /-- Maximum number of iterations. -/
  maxiter : Nat := 0
  /-- Intervals to output p(x,y); `UINT_MAX` means do not output. -/
  snapshot : Nat := 0
  /-- Iteration; only calculated by the main process and broadcasted to others. -/
  iter : Nat := 0
  /-- Number of OpenMP threads. -/
  threads : Nat := 0
  /-- ID of this process; `initialize` sets it to `MAINPROC`. -/
  world_id : Nat := 0
  /-- Number of processes total; `initialize` sets it to 1. -/
  world_size : Nat := 1
  /-- Starting block (cluster) for this process to handle. -/
  block_start : Nat := 0
  /-- Ending block (cluster) for this process to handle. -/
  block_end : Nat := 0

/-- `#define GET_COS(W,X) (info -> cos[W][X].x)`. -/
def GET_COS (info : INFO α) (W X : Nat) : α := (info.cos W X).x

/-- `#define GET_COS_POSITION(W,X) (info -> cos[W][X].column)`. -/
def GET_COS_POSITION (info : INFO α) (W X : Nat) : Nat := (info.cos W X).column

/-- `#define GET_PROBW1_Z_PREV(X,Y) (info -> probw1_z_prev[X * info -> m + Y])`. -/
def GET_PROBW1_Z_PREV (info : INFO α) (X Y : Nat) : α :=
  info.mem_w1 info.probw1_z_prev (X * info.m + Y)

/-- `#define GET_PROBW1_Z_CURR(X,Y) (info -> probw1_z_curr[X * info -> m + Y])`. -/
def GET_PROBW1_Z_CURR (info : INFO α) (X Y : Nat) : α :=
  info.mem_w1 info.probw1_z_curr (X * info.m + Y)

/-- `#define GET_PROBW2_Z_PREV(X,Y) (info -> probw2_z_prev[X * info -> n + Y])`. -/
def GET_PROBW2_Z_PREV (info : INFO α) (X Y : Nat) : α :=
  info.mem_w2 info.probw2_z_prev (X * info.n + Y)

/-- `#define GET_PROBW2_Z_CURR(X,Y) (info -> probw2_z_curr[X * info -> n + Y])`. -/
def GET_PROBW2_Z_CURR (info : INFO α) (X Y : Nat) : α :=
  info.mem_w2 info.probw2_z_curr (X * info.n + Y)

/-- `#define GET_PROBZ_PREV(X) (info -> probz_prev[X])`. -/
def GET_PROBZ_PREV (info : INFO α) (X : Nat) : α := info.mem_z info.probz_prev X

/-- `#define GET_PROBZ_CURR(X) (info -> probz_curr[X])`. -/
def GET_PROBZ_CURR (info : INFO α) (X : Nat) : α := info.mem_z info.probz_curr X

/-- `#define GET_PROBZ_W1W2_PREV(W,X,Y)`. -/
def GET_PROBZ_W1W2_PREV (info : INFO α) (W X Y : Nat) : α :=
  GET_PROBW1_Z_PREV info W X + GET_PROBW2_Z_PREV info W Y + GET_PROBZ_PREV info W

/-- `#define GET_PROB_W1W2(X, Y) (info -> prob_w1w2[X * info -> n + Y])`. -/
def GET_PROB_W1W2 (info : INFO α) (X Y : Nat) : α := info.prob_w1w2 (X * info.n + Y)

/-- The assignment `GET_PROBW1_Z_CURR (X, Y) = v`. -/
def SET_PROBW1_Z_CURR (info : INFO α) (X Y : Nat) (v : α) : INFO α :=
  { info with
    mem_w1 := Function.update info.mem_w1 info.probw1_z_curr
      (Function.update (info.mem_w1 info.probw1_z_curr) (X * info.m + Y) v) }

/-- The assignment `GET_PROBW2_Z_CURR (X, Y) = v`. -/
def SET_PROBW2_Z_CURR (info : INFO α) (X Y : Nat) (v : α) : INFO α :=
  { info with
    mem_w2 := Function.update info.mem_w2 info.probw2_z_curr
      (Function.update (info.mem_w2 info.probw2_z_curr) (X * info.n + Y) v) }

/-- The assignment `GET_PROBZ_CURR (X) = v`. -/
def SET_PROBZ_CURR (info : INFO α) (X : Nat) (v : α) : INFO α :=
  { info with
    mem_z := Function.update info.mem_z info.probz_curr
      (Function.update (info.mem_z info.probz_curr) X v) }

/-- `void swapPrevCurr (INFO *info)`: the three pointer exchanges. -/
def swapPrevCurr (info : INFO α) : INFO α :=
  let probw1_z_temp := info.probw1_z_prev
  let probw2_z_temp := info.probw2_z_prev
  let probz_temp := info.probz_prev
  { info with
    probw1_z_prev := info.probw1_z_curr
    probw2_z_prev := info.probw2_z_curr
    probz_prev := info.probz_curr
    probw1_z_curr := probw1_z_temp
    probw2_z_curr := probw2_z_temp
    probz_curr := probz_temp }

/-- The local arrays `flag_z`, `flag_w1_z`, `flag_w2_z` of `applyEMStep`. -/
structure EMFlags where
  flag_z : Nat → Bool
  flag_w1_z : Nat → Nat → Bool
  flag_w2_z : Nat → Nat → Bool

/-- The block `/*  probz  */` of `applyEMStep`, with `v` the value of
`cos + temp`: the first contribution to cluster `k` initialises
`GET_PROBZ_CURR (k)` and sets the flag, a later one is added with
`logSumsInline`. -/
def accumProbZ (M : LibM α) (k : Nat) (v : α) (st : INFO α × EMFlags) : INFO α × EMFlags :=
  if st.2.flag_z k then
    (SET_PROBZ_CURR st.1 k (logSumsInline M (GET_PROBZ_CURR st.1 k) v).1, st.2)
  else
    (SET_PROBZ_CURR st.1 k v, { st.2 with flag_z := Function.update st.2.flag_z k true })

/-- The block `/*  probw1_z  */` of `applyEMStep`. -/
def accumProbW1 (M : LibM α) (k i : Nat) (v : α) (st : INFO α × EMFlags) :
    INFO α × EMFlags :=
  if st.2.flag_w1_z k i then
    (SET_PROBW1_Z_CURR st.1 k i (logSumsInline M (GET_PROBW1_Z_CURR st.1 k i) v).1, st.2)
  else
    (SET_PROBW1_Z_CURR st.1 k i v,
      { st.2 with
        flag_w1_z := Function.update st.2.flag_w1_z k
          (Function.update (st.2.flag_w1_z k) i true) })

/-- The block `/*  probw2_z  */` of `applyEMStep`. -/
def accumProbW2 (M : LibM α) (k j : Nat) (v : α) (st : INFO α × EMFlags) :
    INFO α × EMFlags :=
  if st.2.flag_w2_z k j then
    (SET_PROBW2_Z_CURR st.1 k j (logSumsInline M (GET_PROBW2_Z_CURR st.1 k j) v).1, st.2)
  else
    (SET_PROBW2_Z_CURR st.1 k j v,
      { st.2 with
        flag_w2_z := Function.update st.2.flag_w2_z k
          (Function.update (st.2.flag_w2_z k) j true) })

/-- The value `cos + temp` that the innermost loop body of `applyEMStep`
contributes for cluster `k`, row `i` and position `pos_j` of the row. -/
def contribution (info : INFO α) (k i pos_j : Nat) : α :=
  let j := GET_COS_POSITION info i pos_j
  let cos := GET_COS info i pos_j
  let temp := GET_PROBZ_W1W2_PREV info k i j - GET_PROB_W1W2 info i j
  cos + temp

/-- The body of the innermost loop of `applyEMStep`, for cluster `k`, row `i`
and position `pos_j` of the row: `j`, `cos` and `temp` are read, then the three
accumulators are updated in turn. -/
def emCell (M : LibM α) (k i pos_j : Nat) (st : INFO α × EMFlags) : INFO α × EMFlags :=
  let j := GET_COS_POSITION st.1 i pos_j
  let v := contribution st.1 k i pos_j
  accumProbW2 M k j v (accumProbW1 M k i v (accumProbZ M k v st))

/-- The loop over the positions `1 .. cos_count` of row `i`, for cluster `k`. -/
def emRow (M : LibM α) (info : INFO α) (k i : Nat) (st : INFO α × EMFlags) :
    INFO α × EMFlags :=
  (List.range' 1 (GET_COS_POSITION info i 0)).foldl (fun s pos_j => emCell M k i pos_j s) st

/-- The loop over the rows `0 .. m-1`, for cluster `k`. -/
def emCluster (M : LibM α) (info : INFO α) (k : Nat) (st : INFO α × EMFlags) :
    INFO α × EMFlags :=
  (List.range info.m).foldl (fun s i => emRow M info k i s) st

/-- The flag arrays after the initialisation loops of `applyEMStep`: every cell
is so far untouched. -/
def clearedFlags : EMFlags where
  flag_z := fun _ => false
  flag_w1_z := fun _ _ => false
  flag_w2_z := fun _ _ => false

/-- `void applyEMStep (INFO *info)`: all flags cleared, then the loop over the
local clusters `0 .. block_size-1`. -/
def applyEMStep (M : LibM α) (info : INFO α) : INFO α :=
  ((List.range info.block_size).foldl (fun s k => emCluster M info k s)
    (info, clearedFlags)).1

/-- The first loop of `normalizeProbs`, for cluster `k`: `norm` is subtracted
from the row of `k` in both term tables. -/
def normalizeCluster (info : INFO α) (k : Nat) (s : INFO α) : INFO α :=
  let norm := GET_PROBZ_CURR s k
  let s1 := (List.range info.m).foldl
    (fun t i => SET_PROBW1_Z_CURR t k i (GET_PROBW1_Z_CURR t k i - norm)) s
  (List.range info.n).foldl
    (fun t j => SET_PROBW2_Z_CURR t k j (GET_PROBW2_Z_CURR t k j - norm)) s1

/-- The value of `sum` in `normalizeProbs` after the loop
`for (k = 1; k < num_clusters; k++) logSumsInline (sum, GET_PROBZ_CURR (k))`. -/
def normalizeSum (M : LibM α) (info : INFO α) : α :=
  (List.range' 1 (info.num_clusters - 1)).foldl
    (fun sum k => (logSumsInline M sum (GET_PROBZ_CURR info k)).1) (GET_PROBZ_CURR info 0)

/-- `void normalizeProbs (INFO *info)`. -/
def normalizeProbs (M : LibM α) (info : INFO α) : INFO α :=
  let info1 := (List.range info.num_clusters).foldl (fun s k => normalizeCluster info k s) info
  let sum := normalizeSum M info1
  (List.range info.num_clusters).foldl
    (fun s k => SET_PROBZ_CURR s k (GET_PROBZ_CURR s k - sum)) info1

/-- For each of the three tables the previous and the current pointer name
different buffers. -/
def GenerationsDistinct (info : INFO α) : Prop :=
  info.probw1_z_prev ≠ info.probw1_z_curr ∧
  info.probw2_z_prev ≠ info.probw2_z_curr ∧
  info.probz_prev ≠ info.probz_curr

/-- State `a` differs from state `b` at most in the contents of the current
buffers of `b`: the dimensions, the co-occurrence rows, the six pointers, the
joint matrix and every buffer other than the three current ones are equal. -/
structure SameExceptCurr (a b : INFO α) : Prop where
  num_clusters : a.num_clusters = b.num_clusters
  m : a.m = b.m
  n : a.n = b.n
  cos : a.cos = b.cos
  probw1_z_curr : a.probw1_z_curr = b.probw1_z_curr
  probw2_z_curr : a.probw2_z_curr = b.probw2_z_curr
  probz_curr : a.probz_curr = b.probz_curr
  probw1_z_prev : a.probw1_z_prev = b.probw1_z_prev
  probw2_z_prev : a.probw2_z_prev = b.probw2_z_prev
  probz_prev : a.probz_prev = b.probz_prev
  prob_w1w2 : a.prob_w1w2 = b.prob_w1w2
  block_size : a.block_size = b.block_size
  mem_w1 : ∀ h, h ≠ b.probw1_z_curr → a.mem_w1 h = b.mem_w1 h
  mem_w2 : ∀ h, h ≠ b.probw2_z_curr → a.mem_w2 h = b.mem_w2 h
  mem_z : ∀ h, h ≠ b.probz_curr → a.mem_z h = b.mem_z h

/-- Generation isolation for the step that follows a swap, from the state
`info` before `swapPrevCurr`: the generations stay distinct, `applyEMStep` and
`normalizeProbs` change no buffer other than the three current ones, and the
tables that were current before the swap, the joint matrix and the
co-occurrence rows are the same after the step as before the swap. -/
def IsolatedStep (M : LibM α) (info : INFO α) : Prop :=
  GenerationsDistinct (swapPrevCurr info) ∧
  SameExceptCurr (normalizeProbs M (applyEMStep M (swapPrevCurr info))) (swapPrevCurr info) ∧
  (normalizeProbs M (applyEMStep M (swapPrevCurr info))).mem_w1 info.probw1_z_curr
    = info.mem_w1 info.probw1_z_curr ∧
  (normalizeProbs M (applyEMStep M (swapPrevCurr info))).mem_w2 info.probw2_z_curr
    = info.mem_w2 info.probw2_z_curr ∧
  (normalizeProbs M (applyEMStep M (swapPrevCurr info))).mem_z info.probz_curr
    = info.mem_z info.probz_curr ∧
  (normalizeProbs M (applyEMStep M (swapPrevCurr info))).prob_w1w2 = info.prob_w1w2 ∧
  (normalizeProbs M (applyEMStep M (swapPrevCurr info))).cos = info.cos

/-- A small configuration: two term-A rows, two term-B columns, two clusters on
one worker, all four cells observed (log-counts `0`), every table entry `0`;
buffer 0 is current and buffer 1 previous. -/
def sampleInfo (α : Type) [LinearOrderedField α] : INFO α where
  num_clusters := 2
  m := 2
  n := 2
  cos := fun _ pos_j =>
    match pos_j with
    | 0 => { x := 0, column := 2 }
    | 1 => { x := 0, column := 0 }
    | _ => { x := 0, column := 1 }
  probw1_z_curr := 0
  probw2_z_curr := 0
  probz_curr := 0
  probw1_z_prev := 1
  probw2_z_prev := 1
  probz_prev := 1
  prob_w1w2 := fun _ => 0
  block_size := 2
  mem_w1 := fun _ _ => 0
  mem_w2 := fun _ _ => 0
  mem_z := fun _ _ => 0

end Generic

/-! ## The single-precision library functions

`PROBNODE` is `double`, but `DOEXP` and `DOLOGONE` call `expf` and `log1pf`:
the operand is converted to `float`, the function is evaluated in single
precision, and the `float` result is converted back to `double` without
change.  The arithmetic on `double` values themselves is taken as exact. -/

/-- The integer nearest to `q`, a tie going to the even one. -/
noncomputable def roundEven (q : ℝ) : ℤ :=
  if q - ⌊q⌋ < 1 / 2 then ⌊q⌋
  else if 1 / 2 < q - ⌊q⌋ then ⌊q⌋ + 1
  else if ⌊q⌋ % 2 = 0 then ⌊q⌋ else ⌊q⌋ + 1

/-- The conversion of a value to `float` (IEEE 754 binary32: 24 significant
bits, least exponent -126, round to nearest, ties to even), as a real number.
Overflow is not modelled. -/
noncomputable def toFloat (x : ℝ) : ℝ :=
  (roundEven (x / (2 : ℝ) ^ (max (Int.log 2 |x|) (-126) - 23)) : ℝ)
    * (2 : ℝ) ^ (max (Int.log 2 |x|) (-126) - 23)

/-- `expf` and `log1pf` on `double` operands, each taken as correctly rounded:
the result is the `float` nearest to the exact value at the converted
operand. -/
noncomputable def floatLibM : LibM ℝ where
  DOEXP := fun x => toFloat (Real.exp (toFloat x))
  DOLOGONE := fun t => toFloat (Real.log (1 + toFloat t))

section Joint

variable {α : Type} [LinearOrderedField α]

/-- `#define MAINPROC 0`: the ID of the main processor. -/
abbrev MAINPROC : Nat := 0

/-- `#define GET_PROBZ_W1W2_CURR(W,X,Y)`. -/
def GET_PROBZ_W1W2_CURR (info : INFO α) (W X Y : Nat) : α :=
  GET_PROBW1_Z_CURR info W X + GET_PROBW2_Z_CURR info W Y + GET_PROBZ_CURR info W

/-- The assignment `GET_PROB_W1W2 (X, Y) = v`. -/
def SET_PROB_W1W2 (info : INFO α) (X Y : Nat) (v : α) : INFO α :=
  { info with prob_w1w2 := Function.update info.prob_w1w2 (X * info.n + Y) v }

/-- The value of `temp` after
`temp = GET_PROBZ_W1W2_CURR (0,i,j); for (k = 1; k < K; k++) logSumsInline (temp, GET_PROBZ_W1W2_CURR (k,i,j))`,
the cluster loop of `calculateProbW1W2` (`K = block_size`), `calculateML` and
`checkCoProb` (`K = num_clusters`). -/
def jointFold (M : LibM α) (info : INFO α) (K i j : Nat) : α :=
  (List.range' 1 (K - 1)).foldl
    (fun temp k => (logSumsInline M temp (GET_PROBZ_W1W2_CURR info k i j)).1)
    (GET_PROBZ_W1W2_CURR info 0 i j)

/-- The first loop nest of `calculateProbW1W2`: every cell of the joint matrix
is set from the clusters `0 .. block_size-1` of this process. -/
def calculateProbW1W2Local (M : LibM α) (info : INFO α) : INFO α :=
  (List.range info.m).foldl
    (fun s i => (List.range info.n).foldl
      (fun t j => SET_PROB_W1W2 t i j (jointFold M t t.block_size i j)) s) info

/-- The loop nest the main process runs on a received matrix
`temp_prob_w1w2`: `logSumsInline (GET_PROB_W1W2(i,j), temp_prob_w1w2[i * n + j])`
for every cell. -/
def combineProbW1W2 (M : LibM α) (info : INFO α) (temp_prob_w1w2 : Nat → α) : INFO α :=
  (List.range info.m).foldl
    (fun s i => (List.range info.n).foldl
      (fun t j => SET_PROB_W1W2 t i j
        (logSumsInline M (GET_PROB_W1W2 t i j) (temp_prob_w1w2 (i * t.n + j))).1) s) info

/-- `void calculateProbW1W2 (INFO *info)`.  On the main process `recv owner` is
the matrix that `MPI_Recv` delivers from process `owner`; the other processes
send their `prob_w1w2` to the main process and keep it. -/
def calculateProbW1W2 (M : LibM α) (info : INFO α) (recv : Nat → Nat → α) : INFO α :=
  let info1 := calculateProbW1W2Local M info
  if info1.world_id = MAINPROC then
    (List.range' 1 (info1.world_size - 1)).foldl
      (fun s owner => combineProbW1W2 M s (recv owner)) info1
  else
    info1

/-- `PROBNODE calculateML (INFO *info)`. -/
def calculateML (M : LibM α) (info : INFO α) : α :=
  (List.range info.m).foldl
    (fun total i => (List.range' 1 (GET_COS_POSITION info i 0)).foldl
      (fun total pos_j =>
        let j := GET_COS_POSITION info i pos_j
        let temp := jointFold M info info.num_clusters i j
        total + temp * M.DOEXP (GET_COS info i pos_j)) total) 0

end Joint

section Run

variable {α : Type} [LinearOrderedField α]

/-- The largest `unsigned int`; `run` uses it as the sentinel that ends the loop. -/
def UINT_MAX : Nat := 4294967295

/-- `DBL_EPSILON` of `<float.h>` for IEEE doubles, `2^-52`. -/
def DBL_EPSILON : α := 1 / 2 ^ 52

/-- `#define ML_DELTA 0.001`. -/
def ML_DELTA : α := 1 / 1000

/-- `#define DBL_LESS(A,B) ((B - A) > DBL_EPSILON)`. -/
def DBL_LESS (A B : α) : Bool := decide (B - A > DBL_EPSILON)

/-- `diff = (curr_ML - prev_ML) / prev_ML * 100 * -1`.  A zero `prev_ML` makes
the C division produce an infinity or a NaN, for which every later comparison
is false; that case is `none`. -/
def relativeChange (curr_ML prev_ML : α) : Option α :=
  if prev_ML = 0 then none else some ((curr_ML - prev_ML) / prev_ML * 100 * -1)

/-- `DBL_LESS (fabs (diff), ML_DELTA)`. -/
def convergenceTest (curr_ML prev_ML : α) : Bool :=
  match relativeChange curr_ML prev_ML with
  | none => false
  | some diff => DBL_LESS |diff| ML_DELTA

/-- `(curr_ML < prev_ML) || (DBL_LESS (fabs (diff), ML_DELTA))`. -/
def stopTest (curr_ML prev_ML : α) : Bool :=
  decide (curr_ML < prev_ML) || convergenceTest curr_ML prev_ML

/-- The coordinator's update of `info -> iter` in one pass of the loop of
`run`: the tests on iterations after the first, the increment, and the ceiling
test. -/
def coordinatorIter (iter maxiter : Nat) (prev_ML curr_ML : α) : Nat :=
  let iter1 := if iter = 0 then iter else if stopTest curr_ML prev_ML then UINT_MAX else iter
  let iter2 := if iter1 ≠ UINT_MAX then (iter1 + 1) % UINT_SIZE else iter1
  if iter2 > maxiter then UINT_MAX else iter2

/-- The variables of the loop of `run`: the program state, `info -> iter`,
`prev_ML`, and a count of the executions of `applyEMStep`. -/
structure RunState (σ α : Type) where
  info : σ
  iter : Nat
  prev_ML : α
  steps : Nat

/-- One pass of the `while (true)` loop of `run`.  `joint` is
`calculateProbW1W2`, `ml` is `calculateML`, and `emStep` is the rest of the body
after the `break` test (`swapPrevCurr`, `applyEMStep`, gather, `normalizeProbs`,
distribute).  The first component tells whether the pass left through `break`. -/
def runBody {σ : Type} (joint : σ → σ) (ml : σ → α) (emStep : σ → σ) (maxiter : Nat)
    (s : RunState σ α) : Bool × RunState σ α :=
  let info1 := joint s.info
  let curr_ML := ml info1
  let iter := coordinatorIter s.iter maxiter s.prev_ML curr_ML
  if iter = UINT_MAX then
    (true, { info := info1, iter := iter, prev_ML := curr_ML, steps := s.steps })
  else
    (false, { info := emStep info1, iter := iter, prev_ML := curr_ML, steps := s.steps + 1 })

/-- The `while (true)` loop of `run`, with a bound on the number of passes. -/
def runLoop {σ : Type} (joint : σ → σ) (ml : σ → α) (emStep : σ → σ) (maxiter : Nat) :
    Nat → RunState σ α → Option (RunState σ α)
  | 0, _ => none
  | fuel + 1, s =>
    let r := runBody joint ml emStep maxiter s
    if r.1 then some r.2 else runLoop joint ml emStep maxiter fuel r.2

/-- The part of the loop body after the `break` test, for one worker (gather and
distribute move nothing). -/
def emIteration (M : LibM α) (info : INFO α) : INFO α :=
  normalizeProbs M (applyEMStep M (swapPrevCurr info))

/-- The loop of `run` for one worker. -/
def run (M : LibM α) (info : INFO α) (fuel : Nat) : Option (RunState (INFO α) α) :=
  runLoop (fun s => calculateProbW1W2 M s (fun _ _ => 0)) (calculateML M) (emIteration M)
    info.maxiter fuel { info := info, iter := info.iter, prev_ML := 0, steps := 0 }

/-- The log-likelihood values reached by the loop from `st0`: entry `t` is the
value computed in pass `t`. -/
def mlSequence {σ : Type} (joint : σ → σ) (ml : σ → α) (emStep : σ → σ) (st0 : σ)
    (t : Nat) : α :=
  ml (joint ((fun s => emStep (joint s))^[t] st0))

/-- Neither the convergence nor the divergence test fires in passes `1 .. n`. -/
def NoStop {σ : Type} (joint : σ → σ) (ml : σ → α) (emStep : σ → σ) (st0 : σ)
    (n : Nat) : Prop :=
  ∀ t, t < n →
    stopTest (mlSequence joint ml emStep st0 (t + 1)) (mlSequence joint ml emStep st0 t) = false

end Run

/-- A pass on iteration 1 whose relative change is within `DBL_EPSILON` below
`ML_DELTA`. -/
def marginState : RunState Unit ℚ :=
  { info := (), iter := 1, prev_ML := -100, steps := 0 }

/-- The log-likelihood computed in the pass from `marginState`. -/
def marginML : ℚ := -100 + 1 / 1000 - 1 / 2 ^ 53

/-- A start state for a run whose log-likelihood halves its distance to zero in
every pass. -/
def halvingState : RunState ℚ ℚ :=
  { info := -1, iter := 0, prev_ML := 0, steps := 0 }


/-! ## Settings and start-up (parameters.c, main.c) -/

section Settings

variable {α : Type}

/-- `checkSettings`: the five rejections in source order, then the raise of
`num_clusters` to `world_size`.  The first component is the returned `bool`,
the second the `INFO` record afterwards. -/
def checkSettings (info : INFO α) : Bool × INFO α :=
  if info.co_fn.isNone then (false, info)
  else if info.maxiter = 0 then (false, info)
  else if info.num_clusters = 0 then (false, info)
  else if info.num_clusters ≥ MAX_CLUSTERS then (false, info)
  else if info.base_fn.isNone then (false, info)
  else
    (true,
      if info.world_size > info.num_clusters then { info with num_clusters := info.world_size }
      else info)

/-- `EXIT_SUCCESS` of `<stdlib.h>`. -/
def EXIT_SUCCESS : Int := 0

/-- `EXIT_FAILURE` of `<stdlib.h>`. -/
def EXIT_FAILURE : Int := 1

/-- What a run of the program did: the status it ended with, whether the usage
text was printed, and whether `run` was called. -/
structure MainOutcome where
  status : Int
  usage_printed : Bool
  run_called : Bool
deriving DecidableEq

/-- `usage`: prints the usage text and ends the process with
`exit (EXIT_SUCCESS)`. -/
def usage : MainOutcome :=
  { status := EXIT_SUCCESS, usage_printed := true, run_called := false }

/-- One command-line option as `getopt_long` reports it; a numeric argument is
carried as the value `atoi` gives for it, and `unknown` is an option outside
the table. -/
inductive Opt where
  | base (optarg : String)
  | cooccur (optarg : String)
  | clusters (optarg : Int)
  | seed (optarg : Int)
  | maxiter (optarg : Int)
  | snapshot (optarg : Int)
  | openmp (optarg : Int)
  | verbose
  | debug
  | text
  | rounding
  | nooutput
  | unknown

/-- An `int` stored into an `unsigned int`. -/
def toUnsigned (v : Int) : Nat := (v % (UINT_SIZE : Int)).toNat

/-- The `switch` of `processOptions` for one option; an `exit` is an error. -/
def processOption (HAVE_OPENMP : Bool) (info : INFO α) : Opt → Except MainOutcome (INFO α)
  | .cooccur optarg => .ok { info with co_fn := some optarg }
  | .clusters optarg => .ok { info with num_clusters := toUnsigned optarg }
  | .seed optarg => .ok { info with seed := toUnsigned optarg }
  | .base optarg => .ok { info with base_fn := some optarg }
  | .maxiter optarg => .ok { info with maxiter := toUnsigned optarg }
  | .snapshot optarg => .ok { info with snapshot := toUnsigned optarg }
  | .openmp optarg =>
    if HAVE_OPENMP then
      if toUnsigned optarg > info.threads then
        .error { status := -1, usage_printed := false, run_called := false }
      else .ok { info with threads := toUnsigned optarg }
    else .error { status := -1, usage_printed := false, run_called := false }
  | .verbose => .ok { info with verbose := true }
  | .debug => .ok info
  | .text => .ok info
  | .rounding => .ok info
  | .nooutput => .ok { info with no_output := true }
  | .unknown => .error { status := EXIT_FAILURE, usage_printed := false, run_called := false }

/-- `processOptions`: usage when there is no argument, then the options in
order, then the block of this worker.  It returns `true` whenever it returns. -/
def processOptions (HAVE_OPENMP : Bool) (argv : List Opt) (info : INFO α) :
    Except MainOutcome (Bool × INFO α) :=
  if argv.isEmpty then .error usage
  else
    match argv.foldlM (processOption HAVE_OPENMP)
        { info with base_fn := none, co_fn := none, num_clusters := 0, seed := UINT_MAX,
                    maxiter := 0, snapshot := UINT_MAX, verbose := false, no_output := false } with
    | .error e => .error e
    | .ok info1 =>
      .ok (true,
        { info1 with
          block_start := BLOCK_LOW info1.world_id info1.world_size info1.num_clusters
          block_end := BLOCK_HIGH info1.world_id info1.world_size info1.num_clusters
          block_size := BLOCK_SIZE info1.world_id info1.world_size info1.num_clusters })

/-- `main`, from the record that the start-up code has filled in (`world_id`,
`world_size`, `threads`) to the way the process ends. -/
def main (HAVE_OPENMP : Bool) (argv : List Opt) (info : INFO α) : MainOutcome :=
  match processOptions HAVE_OPENMP argv info with
  | .error e => e
  | .ok (ok, info1) =>
    if !ok || !(checkSettings info1).1 then usage
    else { status := EXIT_SUCCESS, usage_printed := false, run_called := true }

end Settings

/-- Settings that `checkSettings` accepts: two clusters, ten iterations, one
worker. -/
def validSettings : INFO ℚ :=
  { sampleInfo ℚ with co_fn := some "in.co", base_fn := some "out", maxiter := 10 }

/-- Settings with 999 clusters and a million iterations. -/
def longRunSettings : INFO ℚ :=
  { sampleInfo ℚ with
    num_clusters := 999, co_fn := some "in.co", base_fn := some "out", maxiter := 1000000 }

/-- Settings with two clusters on 1500 workers. -/
def crowdedSettings : INFO ℚ :=
  { sampleInfo ℚ with
    co_fn := some "in.co", base_fn := some "out", maxiter := 10, world_size := 1500 }

/-- A command line without `--clusters`. -/
def missingClustersArgs : List Opt :=
  [Opt.cooccur "in.co", Opt.base "out", Opt.maxiter 10]


section Accepted

variable {α : Type}

/-- The record that `main` passes to `run`: the result of `processOptions`
followed by a successful `checkSettings`; `none` when the process ends
before `run`. -/
def acceptedSettings (HAVE_OPENMP : Bool) (argv : List Opt) (info : INFO α) : Option (INFO α) :=
  match processOptions HAVE_OPENMP argv info with
  | .error _ => none
  | .ok (ok, info1) =>
    if !ok || !(checkSettings info1).1 then none else some (checkSettings info1).2

/-- Cluster `k` lies in the range `[block_start, block_start + block_size)`
stored in the record. -/
def InStoredRange (info : INFO α) (k : Nat) : Prop :=
  info.block_start ≤ k ∧ k < info.block_start + info.block_size

instance (info : INFO α) (k : Nat) : Decidable (InStoredRange info k) := by
  unfold InStoredRange; infer_instance

/-- The snapshot test of the loop of `run`,
`(snapshot != UINT_MAX) && ((iter % snapshot == 0) || (iter == 1))`;
`none` when the modulo is evaluated with a zero divisor. -/
def snapshotTest (info : INFO α) : Option Bool :=
  if info.snapshot ≠ UINT_MAX then
    if info.snapshot = 0 then none
    else some (decide (info.iter % info.snapshot = 0) || decide (info.iter = 1))
  else some false

end Accepted

/-- The record of worker `w` of `p` when `main` calls `processOptions`. -/
def workerStart (w p : Nat) : INFO ℚ :=
  { sampleInfo ℚ with world_id := w, world_size := p }

/-- A command line that asks for two clusters. -/
def twoClustersArgs : List Opt :=
  [Opt.cooccur "in.co", Opt.base "out", Opt.clusters 2, Opt.maxiter 10]

/-- A command line that asks for a snapshot interval of zero. -/
def snapshotZeroArgs : List Opt :=
  [Opt.cooccur "in.co", Opt.base "out", Opt.clusters 2, Opt.maxiter 10, Opt.snapshot 0]


section Exchange

variable {α : Type}

end Exchange
theorem BLOCK_LOW_of_le {i p n : Nat} (hi : i ≤ p) (hpn : p * n < UINT_SIZE) :
    BLOCK_LOW i p n = i * n / p := by
  unfold BLOCK_LOW
  rw [Nat.mod_eq_of_lt (lt_of_le_of_lt (Nat.mul_le_mul_right n hi) hpn)]

theorem low_mono (p n : Nat) {i j : Nat} (hij : i ≤ j) : i * n / p ≤ j * n / p :=
  Nat.div_le_div_right (Nat.mul_le_mul_right n hij)

theorem BLOCK_LOW_le_n {i p n : Nat} (hp : 1 ≤ p) (hi : i ≤ p) (hpn : p * n < UINT_SIZE) :
    BLOCK_LOW i p n ≤ n := by
  rw [BLOCK_LOW_of_le hi hpn]
  calc i * n / p ≤ p * n / p := low_mono p n hi
    _ = n := Nat.mul_div_cancel_left n hp

theorem BLOCK_SIZE_of_lt {i p n : Nat} (hp : 1 ≤ p) (hi : i < p) (hpn : p * n < UINT_SIZE) :
    BLOCK_LOW i p n + BLOCK_SIZE i p n = BLOCK_LOW (i + 1) p n := by
  have h1 : BLOCK_LOW i p n ≤ BLOCK_LOW (i + 1) p n := by
    rw [BLOCK_LOW_of_le (le_of_lt hi) hpn, BLOCK_LOW_of_le hi hpn]
    exact low_mono p n (Nat.le_succ i)
  have h2 : BLOCK_LOW (i + 1) p n ≤ n := BLOCK_LOW_le_n hp hi hpn
  have h3 : n < UINT_SIZE := lt_of_le_of_lt (Nat.le_mul_of_pos_left n hp) hpn
  unfold BLOCK_SIZE
  have h4 : BLOCK_LOW (i + 1) p n + UINT_SIZE - BLOCK_LOW i p n
      = (BLOCK_LOW (i + 1) p n - BLOCK_LOW i p n) + UINT_SIZE := by omega
  rw [h4, Nat.add_mod_right, Nat.mod_eq_of_lt (by omega)]
  omega

theorem BLOCK_OWNER_of_lt {k p n : Nat} (hp : 1 ≤ p) (hk : k < n) (hpn : p * n < UINT_SIZE) :
    BLOCK_OWNER k p n = (p * (k + 1) - 1) / n := by
  have h3 : n < UINT_SIZE := lt_of_le_of_lt (Nat.le_mul_of_pos_left n hp) hpn
  have h5 : p * (k + 1) ≤ p * n := Nat.mul_le_mul_left p hk
  have h6 : 1 ≤ p * (k + 1) := Nat.mul_pos hp (Nat.succ_pos k)
  unfold BLOCK_OWNER
  rw [Nat.mod_eq_of_lt (show k + 1 < UINT_SIZE by omega),
    Nat.mod_eq_of_lt (show p * (k + 1) < UINT_SIZE by omega)]
  have h4 : p * (k + 1) + UINT_SIZE - 1 = (p * (k + 1) - 1) + UINT_SIZE := by omega
  rw [h4, Nat.add_mod_right, Nat.mod_eq_of_lt (by omega)]

theorem owner_lt {k p n : Nat} (hp : 1 ≤ p) (hk : k < n) : (p * (k + 1) - 1) / n < p := by
  have hn : 0 < n := by omega
  rw [Nat.div_lt_iff_lt_mul hn]
  have h5 : p * (k + 1) ≤ p * n := Nat.mul_le_mul_left p hk
  have h6 : 1 ≤ p * (k + 1) := Nat.mul_pos hp (Nat.succ_pos k)
  omega

theorem owner_low_le {k p n : Nat} (hp : 1 ≤ p) :
    (p * (k + 1) - 1) / n * n / p ≤ k := by
  have h6 : 1 ≤ p * (k + 1) := Nat.mul_pos hp (Nat.succ_pos k)
  have h1 : (p * (k + 1) - 1) / n * n ≤ p * (k + 1) - 1 := Nat.div_mul_le_self _ _
  have h2 : (p * (k + 1) - 1) / n * n / p < k + 1 := by
    rw [Nat.div_lt_iff_lt_mul hp]
    have : (k + 1) * p = p * (k + 1) := Nat.mul_comm _ _
    omega
  omega

theorem owner_lt_next {k p n : Nat} (hp : 1 ≤ p) (hk : k < n) :
    k < ((p * (k + 1) - 1) / n + 1) * n / p := by
  have hn : 0 < n := by omega
  have h6 : 1 ≤ p * (k + 1) := Nat.mul_pos hp (Nat.succ_pos k)
  have h1 : p * (k + 1) - 1 < ((p * (k + 1) - 1) / n + 1) * n :=
    (Nat.div_lt_iff_lt_mul hn).mp (Nat.lt_succ_self ((p * (k + 1) - 1) / n))
  have h2 : k + 1 ≤ ((p * (k + 1) - 1) / n + 1) * n / p := by
    rw [Nat.le_div_iff_mul_le hp]
    have : (k + 1) * p = p * (k + 1) := Nat.mul_comm _ _
    omega
  omega

theorem low_unique {p n k i j : Nat}
    (hi1 : i * n / p ≤ k) (hi2 : k < (i + 1) * n / p)
    (hj1 : j * n / p ≤ k) (hj2 : k < (j + 1) * n / p) : i = j := by
  rcases Nat.lt_trichotomy i j with h | h | h
  · have := low_mono p n (show i + 1 ≤ j from h); omega
  · exact h
  · have := low_mono p n (show j + 1 ≤ i from h); omega

theorem isBlockOwner_of_no_wrap {k p n : Nat} (hp : 1 ≤ p) (hk : k < n)
    (hpn : p * n < UINT_SIZE) : IsBlockOwner (BLOCK_OWNER k p n) p n k := by
  rw [BLOCK_OWNER_of_lt hp hk hpn]
  have hw := owner_lt hp hk
  refine ⟨hw, ⟨?_, ?_⟩, ?_⟩
  · rw [BLOCK_LOW_of_le (le_of_lt hw) hpn]; exact owner_low_le hp
  · rw [BLOCK_LOW_of_le hw hpn]; exact owner_lt_next hp hk
  · intro i hi h1 h2
    rw [BLOCK_LOW_of_le (le_of_lt hi) hpn] at h1
    rw [BLOCK_LOW_of_le hi hpn] at h2
    exact low_unique h1 h2 (owner_low_le hp) (owner_lt_next hp hk)

theorem isBlockPartition_of_no_wrap {p n : Nat} (hp : 1 ≤ p)
    (hpn : p * n < UINT_SIZE) : IsBlockPartition p n := by
  constructor
  · intro k hk
    obtain ⟨hw, ⟨h1, h2⟩, h3⟩ := isBlockOwner_of_no_wrap hp hk hpn
    refine ⟨BLOCK_OWNER k p n, ⟨hw, h1, ?_⟩, ?_⟩
    · rw [BLOCK_SIZE_of_lt hp hw hpn]; exact h2
    · rintro i ⟨hi, hi1, hi2⟩
      rw [BLOCK_SIZE_of_lt hp hi hpn] at hi2
      exact h3 i hi hi1 hi2
  · rintro i k hi ⟨_, h2⟩
    rw [BLOCK_SIZE_of_lt hp hi hpn] at h2
    exact lt_of_lt_of_le h2 (BLOCK_LOW_le_n hp hi hpn)

/-- C1, as amended: for every worker count `p ≥ 1` and cluster count `n ≥ 1`
whose product `p * n` fits an `unsigned int`, the ranges
`[BLOCK_LOW(i,p,n), BLOCK_LOW(i,p,n) + BLOCK_SIZE(i,p,n))` for `i = 0 .. p-1`
partition `[0, n)`: every cluster index `k < n` lies in the range of exactly one
worker and no range contains an index `≥ n`. -/
theorem block_ranges_partition (p n : Nat) (hp : 1 ≤ p) (_hn : 1 ≤ n)
    (hpn : p * n < UINT_SIZE) : IsBlockPartition p n :=
  isBlockPartition_of_no_wrap hp hpn

/-- Three workers and ten clusters: the ranges `[0,3)`, `[3,6)`, `[6,10)`. -/
theorem block_ranges_partition_witness :
    (1 ≤ 3 ∧ 1 ≤ 10 ∧ 3 * 10 < UINT_SIZE) ∧ IsBlockPartition 3 10 :=
  ⟨by decide, block_ranges_partition 3 10 (by decide) (by decide) (by decide)⟩

/-- C1 fails as stated: with `p = 5` workers and `n = 1000000000` clusters the
product `5 * n` wraps, `BLOCK_LOW(5,5,n)` is `141006540` instead of `n`, and the
range of worker 4 contains the index `1000000000 ≥ n`. -/
theorem block_ranges_partition_wraps :
    (1 ≤ 5 ∧ 1 ≤ 1000000000) ∧ InBlock 4 5 1000000000 1000000000 ∧
      ¬ IsBlockPartition 5 1000000000 := by
  refine ⟨by decide, by decide, ?_⟩
  intro h
  exact absurd (h.2 4 1000000000 (by decide) (by decide)) (by decide)

/-- C2, as amended: for every `p ≥ 1`, `n ≥ 1` whose product `p * n` fits an
`unsigned int` and every cluster index `k < n`,
`BLOCK_OWNER(k,p,n) = (p*(k+1)-1)/n` is a worker id `w < p` and it is the unique
worker with `BLOCK_LOW(w,p,n) ≤ k < BLOCK_LOW(w+1,p,n)`. -/
theorem block_owner_unique (p n k : Nat) (hp : 1 ≤ p) (_hn : 1 ≤ n) (hk : k < n)
    (hpn : p * n < UINT_SIZE) :
    BLOCK_OWNER k p n = (p * (k + 1) - 1) / n ∧ IsBlockOwner (BLOCK_OWNER k p n) p n k :=
  ⟨BLOCK_OWNER_of_lt hp hk hpn, isBlockOwner_of_no_wrap hp hk hpn⟩

/-- Three workers, ten clusters: cluster 5 belongs to worker 1, whose range is
`[3, 6)`. -/
theorem block_owner_unique_witness :
    (1 ≤ 3 ∧ 1 ≤ 10 ∧ 5 < 10 ∧ 3 * 10 < UINT_SIZE) ∧
      BLOCK_OWNER 5 3 10 = 1 ∧ IsBlockOwner (BLOCK_OWNER 5 3 10) 3 10 5 :=
  ⟨by decide, by decide,
    (block_owner_unique 3 10 5 (by decide) (by decide) (by decide) (by decide)).2⟩

/-- C2 fails as stated: with `p = n = 65537` and `k = 65536` the product
`p * (k+1)` wraps and `BLOCK_OWNER` yields worker 1, whose range `[1, 2)` does
not contain `k`. -/
theorem block_owner_wraps :
    (1 ≤ 65537 ∧ 65536 < 65537) ∧ BLOCK_OWNER 65536 65537 65537 = 1 ∧
      ¬ IsBlockOwner (BLOCK_OWNER 65536 65537 65537) 65537 65537 65536 := by
  refine ⟨by decide, by decide, ?_⟩
  intro h
  exact absurd h.2.1.2 (by decide)

/-! ## Message tags -/

/-- C3, as amended: for any two triples `(iteration, messageKind, clusterIndex)`
with `messageKind` in `{1,..,5}`, `clusterIndex < MAX_CLUSTERS` and
`iteration ≤ 429496` (the largest iteration whose tags do not wrap), equal tags
imply equal triples. -/
theorem MSG_TAG_injective (X₁ Y₁ Z₁ X₂ Y₂ Z₂ : Nat)
    (hY₁ : IsMessageKind Y₁) (hY₂ : IsMessageKind Y₂)
    (hZ₁ : Z₁ < MAX_CLUSTERS) (hZ₂ : Z₂ < MAX_CLUSTERS)
    (hX₁ : X₁ ≤ 429496) (hX₂ : X₂ ≤ 429496)
    (h : MSG_TAG X₁ Y₁ Z₁ = MSG_TAG X₂ Y₂ Z₂) :
    X₁ = X₂ ∧ Y₁ = Y₂ ∧ Z₁ = Z₂ := by
  unfold IsMessageKind at hY₁ hY₂
  unfold MAX_CLUSTERS at hZ₁ hZ₂
  unfold MSG_TAG MAX_CLUSTERS UINT_SIZE at h
  rw [Nat.mod_eq_of_lt (by omega), Nat.mod_eq_of_lt (by omega)] at h
  omega

/-- Two equal tags at iteration 7. -/
theorem MSG_TAG_injective_witness :
    MSG_TAG 7 3 42 = 73042 ∧ (7 = 7 ∧ 3 = 3 ∧ 42 = 42) :=
  ⟨by decide, MSG_TAG_injective 7 3 42 7 3 42 (by decide) (by decide) (by decide)
    (by decide) (by decide) (by decide) rfl⟩

/-- C3 fails as stated: the tag of `(429497, 1, 0)` wraps to `3704`, the tag of
`(0, 3, 704)`. -/
theorem MSG_TAG_collision :
    (IsMessageKind 1 ∧ IsMessageKind 3 ∧ 0 < MAX_CLUSTERS ∧ 704 < MAX_CLUSTERS ∧
      429497 < UINT_SIZE) ∧
    MSG_TAG 429497 1 0 = MSG_TAG 0 3 704 ∧ ((429497, 1, 0) : Nat × Nat × Nat) ≠ (0, 3, 704) := by
  refine ⟨by decide, by decide, by decide⟩

/-! ## Log-space addition -/

section LogSums

variable {α : Type} [LinearOrderedField α]

end LogSums

/-! ## The loss of a thresholded addition -/

section Frame

variable {α : Type}

/-- C8: `swapPrevCurr` exchanges the two generations by handle: afterwards each
previous handle is the former current handle and each current handle the former
previous handle, no table content is copied or changed, and applying it twice
restores the original state. -/
theorem swapPrevCurr_exchanges (info : INFO α) :
    ((swapPrevCurr info).probw1_z_prev = info.probw1_z_curr ∧
      (swapPrevCurr info).probw2_z_prev = info.probw2_z_curr ∧
      (swapPrevCurr info).probz_prev = info.probz_curr ∧
      (swapPrevCurr info).probw1_z_curr = info.probw1_z_prev ∧
      (swapPrevCurr info).probw2_z_curr = info.probw2_z_prev ∧
      (swapPrevCurr info).probz_curr = info.probz_prev) ∧
    ((swapPrevCurr info).mem_w1 = info.mem_w1 ∧
      (swapPrevCurr info).mem_w2 = info.mem_w2 ∧
      (swapPrevCurr info).mem_z = info.mem_z ∧
      (swapPrevCurr info).prob_w1w2 = info.prob_w1w2 ∧
      (swapPrevCurr info).cos = info.cos) ∧
    swapPrevCurr (swapPrevCurr info) = info :=
  ⟨⟨rfl, rfl, rfl, rfl, rfl, rfl⟩, ⟨rfl, rfl, rfl, rfl, rfl⟩, rfl⟩

theorem SameExceptCurr.refl (a : INFO α) : SameExceptCurr a a :=
  ⟨rfl, rfl, rfl, rfl, rfl, rfl, rfl, rfl, rfl, rfl, rfl, rfl,
    fun _ _ => rfl, fun _ _ => rfl, fun _ _ => rfl⟩

theorem SameExceptCurr.trans {a b c : INFO α} (hab : SameExceptCurr a b)
    (hbc : SameExceptCurr b c) : SameExceptCurr a c where
  num_clusters := hab.num_clusters.trans hbc.num_clusters
  m := hab.m.trans hbc.m
  n := hab.n.trans hbc.n
  cos := hab.cos.trans hbc.cos
  probw1_z_curr := hab.probw1_z_curr.trans hbc.probw1_z_curr
  probw2_z_curr := hab.probw2_z_curr.trans hbc.probw2_z_curr
  probz_curr := hab.probz_curr.trans hbc.probz_curr
  probw1_z_prev := hab.probw1_z_prev.trans hbc.probw1_z_prev
  probw2_z_prev := hab.probw2_z_prev.trans hbc.probw2_z_prev
  probz_prev := hab.probz_prev.trans hbc.probz_prev
  prob_w1w2 := hab.prob_w1w2.trans hbc.prob_w1w2
  block_size := hab.block_size.trans hbc.block_size
  mem_w1 := fun h hh =>
    (hab.mem_w1 h (by rw [hbc.probw1_z_curr]; exact hh)).trans (hbc.mem_w1 h hh)
  mem_w2 := fun h hh =>
    (hab.mem_w2 h (by rw [hbc.probw2_z_curr]; exact hh)).trans (hbc.mem_w2 h hh)
  mem_z := fun h hh =>
    (hab.mem_z h (by rw [hbc.probz_curr]; exact hh)).trans (hbc.mem_z h hh)

theorem SameExceptCurr.set_w1 (s : INFO α) (X Y : Nat) (v : α) :
    SameExceptCurr (SET_PROBW1_Z_CURR s X Y v) s :=
  ⟨rfl, rfl, rfl, rfl, rfl, rfl, rfl, rfl, rfl, rfl, rfl, rfl,
    fun _ hh => Function.update_noteq hh _ _, fun _ _ => rfl, fun _ _ => rfl⟩

theorem SameExceptCurr.set_w2 (s : INFO α) (X Y : Nat) (v : α) :
    SameExceptCurr (SET_PROBW2_Z_CURR s X Y v) s :=
  ⟨rfl, rfl, rfl, rfl, rfl, rfl, rfl, rfl, rfl, rfl, rfl, rfl,
    fun _ _ => rfl, fun _ hh => Function.update_noteq hh _ _, fun _ _ => rfl⟩

theorem SameExceptCurr.set_z (s : INFO α) (X : Nat) (v : α) :
    SameExceptCurr (SET_PROBZ_CURR s X v) s :=
  ⟨rfl, rfl, rfl, rfl, rfl, rfl, rfl, rfl, rfl, rfl, rfl, rfl,
    fun _ _ => rfl, fun _ _ => rfl, fun _ hh => Function.update_noteq hh _ _⟩

/-- A loop whose body keeps a reflexive, transitive relation to the state it
starts from keeps it over the whole loop. -/
theorem foldl_rel {σ β : Type} (R : σ → σ → Prop) (hrefl : ∀ s, R s s)
    (htrans : ∀ a b c, R a b → R b c → R a c) (f : σ → β → σ)
    (hstep : ∀ s b, R (f s b) s) (l : List β) (s : σ) : R (l.foldl f s) s := by
  induction l generalizing s with
  | nil => exact hrefl s
  | cons b l ih => exact htrans _ _ _ (ih (f s b)) (hstep s b)

theorem foldl_sameExceptCurr {β : Type} (f : INFO α → β → INFO α)
    (hstep : ∀ s b, SameExceptCurr (f s b) s) (l : List β) (s : INFO α) :
    SameExceptCurr (l.foldl f s) s :=
  foldl_rel SameExceptCurr SameExceptCurr.refl (fun _ _ _ => SameExceptCurr.trans) f hstep l s

theorem foldl_sameExceptCurr_fst {β γ : Type} (f : INFO α × γ → β → INFO α × γ)
    (hstep : ∀ s b, SameExceptCurr (f s b).1 s.1) (l : List β) (s : INFO α × γ) :
    SameExceptCurr (l.foldl f s).1 s.1 :=
  foldl_rel (fun a b : INFO α × γ => SameExceptCurr a.1 b.1) (fun s => SameExceptCurr.refl s.1)
    (fun _ _ _ => SameExceptCurr.trans) f hstep l s

variable [LinearOrderedField α]

theorem accumProbZ_frame (M : LibM α) (k : Nat) (v : α) (st : INFO α × EMFlags) :
    SameExceptCurr (accumProbZ M k v st).1 st.1 := by
  unfold accumProbZ
  split_ifs <;> exact SameExceptCurr.set_z _ _ _

theorem accumProbW1_frame (M : LibM α) (k i : Nat) (v : α) (st : INFO α × EMFlags) :
    SameExceptCurr (accumProbW1 M k i v st).1 st.1 := by
  unfold accumProbW1
  split_ifs <;> exact SameExceptCurr.set_w1 _ _ _ _

theorem accumProbW2_frame (M : LibM α) (k j : Nat) (v : α) (st : INFO α × EMFlags) :
    SameExceptCurr (accumProbW2 M k j v st).1 st.1 := by
  unfold accumProbW2
  split_ifs <;> exact SameExceptCurr.set_w2 _ _ _ _

theorem emCell_frame (M : LibM α) (k i pos_j : Nat) (st : INFO α × EMFlags) :
    SameExceptCurr (emCell M k i pos_j st).1 st.1 := by
  unfold emCell
  exact ((accumProbW2_frame M _ _ _ _).trans (accumProbW1_frame M _ _ _ _)).trans
    (accumProbZ_frame M _ _ _)

theorem emRow_frame (M : LibM α) (info : INFO α) (k i : Nat) (st : INFO α × EMFlags) :
    SameExceptCurr (emRow M info k i st).1 st.1 :=
  foldl_sameExceptCurr_fst _ (fun s b => emCell_frame M k i b s) _ st

theorem emCluster_frame (M : LibM α) (info : INFO α) (k : Nat) (st : INFO α × EMFlags) :
    SameExceptCurr (emCluster M info k st).1 st.1 :=
  foldl_sameExceptCurr_fst _ (fun s b => emRow_frame M info k b s) _ st

theorem applyEMStep_frame (M : LibM α) (info : INFO α) :
    SameExceptCurr (applyEMStep M info) info :=
  foldl_sameExceptCurr_fst (fun s k => emCluster M info k s)
    (fun s b => emCluster_frame M info b s) _ (info, _)

theorem normalizeCluster_frame (info : INFO α) (k : Nat) (s : INFO α) :
    SameExceptCurr (normalizeCluster info k s) s := by
  unfold normalizeCluster
  exact (foldl_sameExceptCurr _ (fun t j => SameExceptCurr.set_w2 t k j _) _ _).trans
    (foldl_sameExceptCurr _ (fun t i => SameExceptCurr.set_w1 t k i _) _ _)

theorem normalizeProbs_frame (M : LibM α) (info : INFO α) :
    SameExceptCurr (normalizeProbs M info) info := by
  unfold normalizeProbs
  exact (foldl_sameExceptCurr _ (fun t k => SameExceptCurr.set_z t k _) _ _).trans
    (foldl_sameExceptCurr _ (fun t k => normalizeCluster_frame info k t) _ _)

theorem isolatedStep_of_distinct (M : LibM α) (info : INFO α) (h : GenerationsDistinct info) :
    IsolatedStep M info := by
  have hf : SameExceptCurr (normalizeProbs M (applyEMStep M (swapPrevCurr info)))
      (swapPrevCurr info) :=
    (normalizeProbs_frame M _).trans (applyEMStep_frame M _)
  obtain ⟨h1, h2, h3⟩ := h
  refine ⟨⟨Ne.symm h1, Ne.symm h2, Ne.symm h3⟩, hf, ?_, ?_, ?_, hf.prob_w1w2, hf.cos⟩
  · exact hf.mem_w1 info.probw1_z_curr (Ne.symm h1)
  · exact hf.mem_w2 info.probw2_z_curr (Ne.symm h2)
  · exact hf.mem_z info.probz_curr (Ne.symm h3)

end Frame

section Isolation

variable {α : Type} [LinearOrderedField α]

/-- C9: generation isolation.  If the previous and current handles refer to
distinct storage before `swapPrevCurr`, they still do afterwards, the writes of
`applyEMStep` and `normalizeProbs` go only to the current tables, and the
contents of the tables that were current before the swap (now previous), the
joint matrix `prob_w1w2` and the co-occurrence rows are identical before and
after `applyEMStep` and `normalizeProbs`. -/
theorem generation_isolation (M : LibM α) (info : INFO α) (h : GenerationsDistinct info) :
    IsolatedStep M info :=
  isolatedStep_of_distinct M info h

end Isolation

/-- The sample configuration has distinct generations, and the step after a
swap is isolated. -/
theorem generation_isolation_witness :
    GenerationsDistinct (sampleInfo ℝ) ∧ IsolatedStep floatLibM (sampleInfo ℝ) :=
  ⟨⟨by decide, by decide, by decide⟩,
    generation_isolation floatLibM (sampleInfo ℝ) ⟨by decide, by decide, by decide⟩⟩

/-! ## Loops as folds: views of the state -/

section Views

end Views

/-! ## Reading a table after a write -/

section GetSet

variable {α : Type}

end GetSet

/-! ## `normalizeProbs` -/

section Normalize

variable {α : Type} [LinearOrderedField α]

end Normalize

/-! ## Sums over ranges -/

section Accumulate

variable {α : Type} [LinearOrderedField α]

end Accumulate

/-! ## `applyEMStep`: the loop nest -/

section LoopNest

variable {α : Type} [LinearOrderedField α]

end LoopNest

section Points

variable {α : Type}

end Points

/-! ## `applyEMStep`: the accumulators after the step -/

section StepResult

variable {α : Type} [LinearOrderedField α]

end StepResult

/-! ## `applyEMStep`: contributions and stored observations -/

section Contributions

variable {α : Type}

end Contributions

section Posterior

variable {α : Type} [LinearOrderedField α]

end Posterior

/-! ## `applyEMStep`: independence of the old current tables -/

section Independence

variable {α : Type} [LinearOrderedField α]

end Independence

section NormalizeTables

variable {α : Type} [LinearOrderedField α]

end NormalizeTables

section NormalizeResult

variable {α : Type} [LinearOrderedField α]

end NormalizeResult

/-! ## Sums over the stored observations -/

section JointFrame

variable {α : Type}

end JointFrame

section JointCells

variable {α : Type} [LinearOrderedField α]

end JointCells

/-! ## `calculateProbW1W2`: the blocks of the workers -/

section Likelihood

variable {α : Type} [LinearOrderedField α]

end Likelihood

section RunLoop

variable {α : Type} [LinearOrderedField α] {σ : Type}

theorem coordinatorIter_of_stop (iter maxiter : Nat) (prev_ML curr_ML : α) (hk : 0 < iter)
    (h : stopTest curr_ML prev_ML = true) :
    coordinatorIter iter maxiter prev_ML curr_ML = UINT_MAX := by
  unfold coordinatorIter
  simp only [h, if_true, if_neg (Nat.pos_iff_ne_zero.mp hk), ne_eq, not_true_eq_false, if_false]
  split <;> rfl

theorem coordinatorIter_of_continue (iter maxiter : Nat) (prev_ML curr_ML : α)
    (h : iter = 0 ∨ stopTest curr_ML prev_ML = false) (hi : iter + 1 < UINT_SIZE) :
    coordinatorIter iter maxiter prev_ML curr_ML
      = if iter + 1 > maxiter ∨ iter + 1 = UINT_MAX then UINT_MAX else iter + 1 := by
  have hne : iter ≠ UINT_MAX := by
    unfold UINT_SIZE at hi
    unfold UINT_MAX
    omega
  have h1 : (if iter = 0 then iter else if stopTest curr_ML prev_ML = true then UINT_MAX
      else iter) = iter := by
    rcases h with h | h
    · rw [if_pos h]
    · rw [h]
      simp
  unfold coordinatorIter
  simp only [h1, ne_eq, hne, not_false_eq_true, if_true, Nat.mod_eq_of_lt hi]
  by_cases hm : iter + 1 > maxiter
  · rw [if_pos hm, if_pos (Or.inl hm)]
  · rw [if_neg hm]
    by_cases he : iter + 1 = UINT_MAX
    · rw [if_pos (Or.inr he), he]
    · rw [if_neg (by tauto)]

theorem runLoop_of_break (joint : σ → σ) (ml : σ → α) (emStep : σ → σ) (maxiter fuel : Nat)
    (s : RunState σ α) (h : (runBody joint ml emStep maxiter s).1 = true) :
    runLoop joint ml emStep maxiter (fuel + 1) s = some (runBody joint ml emStep maxiter s).2 := by
  simp only [runLoop, h, if_true]

theorem runLoop_of_next (joint : σ → σ) (ml : σ → α) (emStep : σ → σ) (maxiter fuel : Nat)
    (s : RunState σ α) (h : (runBody joint ml emStep maxiter s).1 = false) :
    runLoop joint ml emStep maxiter (fuel + 1) s
      = runLoop joint ml emStep maxiter fuel (runBody joint ml emStep maxiter s).2 := by
  simp only [runLoop, h, Bool.false_eq_true, if_false]

theorem runBody_of_sentinel (joint : σ → σ) (ml : σ → α) (emStep : σ → σ) (maxiter : Nat)
    (s : RunState σ α)
    (h : coordinatorIter s.iter maxiter s.prev_ML (ml (joint s.info)) = UINT_MAX) :
    runBody joint ml emStep maxiter s
      = (true, { info := joint s.info, iter := UINT_MAX, prev_ML := ml (joint s.info),
                 steps := s.steps }) := by
  simp only [runBody, h, if_true]

theorem runBody_of_counter (joint : σ → σ) (ml : σ → α) (emStep : σ → σ) (maxiter : Nat)
    (s : RunState σ α) (c : Nat)
    (h : coordinatorIter s.iter maxiter s.prev_ML (ml (joint s.info)) = c) (hc : c ≠ UINT_MAX) :
    runBody joint ml emStep maxiter s
      = (false, { info := emStep (joint s.info), iter := c, prev_ML := ml (joint s.info),
                  steps := s.steps + 1 }) := by
  simp only [runBody, h, if_neg hc]

theorem stopTest_of_less (curr_ML prev_ML : α) (h : curr_ML < prev_ML) :
    stopTest curr_ML prev_ML = true := by
  simp [stopTest, h]

theorem stopTest_of_converged (curr_ML prev_ML : α) (h0 : prev_ML ≠ 0)
    (h : ML_DELTA - |(curr_ML - prev_ML) / prev_ML * 100 * -1| > (DBL_EPSILON : α)) :
    stopTest curr_ML prev_ML = true := by
  simp only [stopTest, convergenceTest, relativeChange, if_neg h0, DBL_LESS, Bool.or_eq_true,
    decide_eq_true_eq]
  exact Or.inr h

end RunLoop

/-- C13 (as stated) fails: on iteration 1, with `prev_ML = -100` and
`curr_ML = -100 + 1/1000 - 2^-53`, the relative change is `1/1000 - 2^-53`, whose
absolute value is below `ML_DELTA`, the log-likelihood did not decrease, and yet
the coordinator only increments the counter to 2 and the pass goes on to the EM
step: `DBL_LESS` asks for a margin of more than `DBL_EPSILON` below
`ML_DELTA`. -/
theorem convergence_margin_continues :
    relativeChange marginML marginState.prev_ML = some (1 / 1000 - 1 / 2 ^ 53) ∧
    |(1 / 1000 - 1 / 2 ^ 53 : ℚ)| < ML_DELTA ∧
    ¬ marginML < marginState.prev_ML ∧
    coordinatorIter marginState.iter 10 marginState.prev_ML marginML = 2 ∧
    runBody id (fun _ => marginML) id 10 marginState
      = (false, { info := (), iter := 2, prev_ML := marginML, steps := 1 }) := by
  have hrc : relativeChange marginML marginState.prev_ML = some (1 / 1000 - 1 / 2 ^ 53) := by
    simp only [relativeChange, marginML, marginState]
    norm_num
  have habs : |(1 / 1000 - 1 / 2 ^ 53 : ℚ)| = 1 / 1000 - 1 / 2 ^ 53 :=
    abs_of_nonneg (by norm_num)
  have hstop : stopTest marginML marginState.prev_ML = false := by
    simp only [stopTest, convergenceTest, hrc, habs, DBL_LESS, ML_DELTA, DBL_EPSILON]
    simp only [marginML, marginState]
    norm_num
  have hiter : coordinatorIter marginState.iter 10 marginState.prev_ML marginML = 2 := by
    rw [coordinatorIter_of_continue _ _ _ _ (Or.inr hstop) (by decide)]
    decide
  refine ⟨hrc, ?_, ?_, hiter, ?_⟩
  · rw [habs]
    simp only [ML_DELTA]
    norm_num
  · simp only [marginML, marginState]
    norm_num
  · exact runBody_of_counter id (fun _ => marginML) id 10 marginState 2 hiter (by decide)

section RunClaims

variable {α : Type} [LinearOrderedField α] {σ : Type}

/-- C13 (amended): on every iteration `k > 0` with a non-zero previous
log-likelihood the coordinator computes
`relativeChange = (curr_ll - prev_ll) / prev_ll * -100`, and whenever
`|relativeChange|` is below `ML_DELTA` by more than `DBL_EPSILON` it sets the
iteration counter to the sentinel `UINT_MAX`, the pass leaves the loop, and no
further EM step is run. -/
theorem convergence_stops (joint : σ → σ) (ml : σ → α) (emStep : σ → σ) (maxiter : Nat)
    (s : RunState σ α) (hk : 0 < s.iter) (h0 : s.prev_ML ≠ 0)
    (h : ML_DELTA - |(ml (joint s.info) - s.prev_ML) / s.prev_ML * 100 * -1|
          > (DBL_EPSILON : α)) :
    relativeChange (ml (joint s.info)) s.prev_ML
      = some ((ml (joint s.info) - s.prev_ML) / s.prev_ML * 100 * -1) ∧
    coordinatorIter s.iter maxiter s.prev_ML (ml (joint s.info)) = UINT_MAX ∧
    (runBody joint ml emStep maxiter s).1 = true ∧
    (runBody joint ml emStep maxiter s).2.iter = UINT_MAX ∧
    (runBody joint ml emStep maxiter s).2.steps = s.steps ∧
    ∀ fuel, runLoop joint ml emStep maxiter (fuel + 1) s
      = some (runBody joint ml emStep maxiter s).2 := by
  have hc := coordinatorIter_of_stop s.iter maxiter s.prev_ML (ml (joint s.info)) hk
    (stopTest_of_converged _ _ h0 h)
  have hb := runBody_of_sentinel joint ml emStep maxiter s hc
  refine ⟨by simp only [relativeChange, if_neg h0], hc, ?_, ?_, ?_, fun fuel => ?_⟩
  · rw [hb]
  · rw [hb]
  · rw [hb]
  · exact runLoop_of_break joint ml emStep maxiter fuel s (by rw [hb])

/-- C14: on every iteration `k > 0`, if `curr_ll < prev_ll` the coordinator sets
the iteration counter to the sentinel `UINT_MAX` in that same pass, whatever the
relative change, so the pass leaves the loop before `swapPrevCurr` and
`applyEMStep` run again; on iteration 0 no test is made (the counter becomes 1
whatever the two log-likelihood values are) and the pass goes on to the EM
step. -/
theorem divergence_stops (joint : σ → σ) (ml : σ → α) (emStep : σ → σ) (maxiter : Nat)
    (hmax : 1 ≤ maxiter) (s : RunState σ α) :
    (0 < s.iter → ml (joint s.info) < s.prev_ML →
      coordinatorIter s.iter maxiter s.prev_ML (ml (joint s.info)) = UINT_MAX ∧
      runBody joint ml emStep maxiter s
        = (true, { info := joint s.info, iter := UINT_MAX, prev_ML := ml (joint s.info),
                   steps := s.steps }) ∧
      ∀ fuel, runLoop joint ml emStep maxiter (fuel + 1) s
        = some (runBody joint ml emStep maxiter s).2) ∧
    (s.iter = 0 →
      (∀ prev_ML curr_ML : α, coordinatorIter s.iter maxiter prev_ML curr_ML = 1) ∧
      runBody joint ml emStep maxiter s
        = (false, { info := emStep (joint s.info), iter := 1, prev_ML := ml (joint s.info),
                    steps := s.steps + 1 })) := by
  have hzero : ∀ prev_ML curr_ML : α, coordinatorIter 0 maxiter prev_ML curr_ML = 1 := by
    intro p c
    rw [coordinatorIter_of_continue 0 maxiter p c (Or.inl rfl) (by decide)]
    rw [if_neg]
    rintro (h | h)
    · omega
    · exact absurd h (by decide)
  refine ⟨fun hk hlt => ?_, fun hz => ?_⟩
  · have hc := coordinatorIter_of_stop s.iter maxiter s.prev_ML (ml (joint s.info)) hk
      (stopTest_of_less _ _ hlt)
    have hb := runBody_of_sentinel joint ml emStep maxiter s hc
    exact ⟨hc, hb, fun fuel => runLoop_of_break joint ml emStep maxiter fuel s (by rw [hb])⟩
  · rw [hz]
    refine ⟨hzero, ?_⟩
    exact runBody_of_counter joint ml emStep maxiter s 1 (by rw [hz]; exact hzero _ _)
      (by decide)

end RunClaims

/-- A pass on iteration 3 whose relative change is exactly zero. -/
theorem convergence_stops_witness :
    0 < (3 : Nat) ∧ (-100 : ℚ) ≠ 0 ∧
    (runBody id (fun _ => (-100 : ℚ)) id 10
      ({ info := (), iter := 3, prev_ML := -100, steps := 3 } : RunState Unit ℚ)).2.steps = 3 :=
  ⟨by decide, by norm_num,
    (convergence_stops id (fun _ => (-100 : ℚ)) id 10
      ({ info := (), iter := 3, prev_ML := -100, steps := 3 } : RunState Unit ℚ)
      (by decide) (by norm_num)
      (by simp only [ML_DELTA, DBL_EPSILON]; norm_num)).2.2.2.2.1⟩

/-- A pass on iteration 2 in which the log-likelihood fell from -100 to -101. -/
theorem divergence_stops_witness :
    1 ≤ (10 : Nat) ∧
    runBody id (fun _ => (-101 : ℚ)) id 10
      ({ info := (), iter := 2, prev_ML := -100, steps := 2 } : RunState Unit ℚ)
      = (true, { info := (), iter := UINT_MAX, prev_ML := -101, steps := 2 }) :=
  ⟨by decide,
    ((divergence_stops id (fun _ => (-101 : ℚ)) id 10 (by decide)
      ({ info := (), iter := 2, prev_ML := -100, steps := 2 } : RunState Unit ℚ)).1
      (by decide) (by norm_num)).2.1⟩

section RunTermination

variable {α : Type} [LinearOrderedField α] {σ : Type}

theorem coordinatorIter_cases (iter maxiter : Nat) (prev_ML curr_ML : α)
    (hi : iter < UINT_MAX) :
    coordinatorIter iter maxiter prev_ML curr_ML = UINT_MAX ∨
    (coordinatorIter iter maxiter prev_ML curr_ML = iter + 1 ∧ iter + 1 ≤ maxiter ∧
      iter + 1 < UINT_MAX) := by
  have hi' : iter + 1 < UINT_SIZE := by
    unfold UINT_MAX at hi
    unfold UINT_SIZE
    omega
  by_cases h : iter = 0 ∨ stopTest curr_ML prev_ML = false
  · rw [coordinatorIter_of_continue iter maxiter prev_ML curr_ML h hi']
    by_cases hc : iter + 1 > maxiter ∨ iter + 1 = UINT_MAX
    · left
      rw [if_pos hc]
    · right
      rw [if_neg hc]
      refine ⟨rfl, ?_, ?_⟩ <;> omega
  · left
    apply coordinatorIter_of_stop
    · omega
    · simpa using (not_or.mp h).2

theorem coordinatorIter_sentinel (maxiter : Nat) (prev_ML curr_ML : α) :
    coordinatorIter UINT_MAX maxiter prev_ML curr_ML = UINT_MAX := by
  unfold coordinatorIter
  have h0 : UINT_MAX ≠ 0 := by decide
  simp only [if_neg h0, ite_self, ne_eq, not_true_eq_false, if_false]

theorem coordinatorIter_ceiling (iter maxiter : Nat) (prev_ML curr_ML : α) :
    coordinatorIter iter maxiter prev_ML curr_ML ≤ maxiter ∨
    coordinatorIter iter maxiter prev_ML curr_ML = UINT_MAX := by
  have key : ∀ c : Nat, (if c > maxiter then UINT_MAX else c) ≤ maxiter ∨
      (if c > maxiter then UINT_MAX else c) = UINT_MAX := by
    intro c
    by_cases h : c > maxiter
    · rw [if_pos h]
      exact Or.inr rfl
    · rw [if_neg h]
      left
      omega
  exact key _

theorem runBody_iter (joint : σ → σ) (ml : σ → α) (emStep : σ → σ) (maxiter : Nat)
    (s : RunState σ α) :
    (runBody joint ml emStep maxiter s).2.iter
      = coordinatorIter s.iter maxiter s.prev_ML (ml (joint s.info)) := by
  unfold runBody
  simp only []
  split <;> rfl

theorem runLoop_total (joint : σ → σ) (ml : σ → α) (emStep : σ → σ) (maxiter : Nat) :
    ∀ (fuel : Nat) (s : RunState σ α), s.iter < UINT_MAX → maxiter + 1 ≤ s.iter + fuel →
      1 ≤ fuel →
      ∃ final, runLoop joint ml emStep maxiter fuel s = some final ∧ final.iter = UINT_MAX ∧
        (s.iter ≤ maxiter → final.steps + s.iter ≤ s.steps + maxiter) := by
  intro fuel
  induction fuel with
  | zero => intro s _ _ h; omega
  | succ fuel ih =>
    intro s hi hfuel _
    rcases coordinatorIter_cases s.iter maxiter s.prev_ML (ml (joint s.info)) hi with h | h
    · have hb := runBody_of_sentinel joint ml emStep maxiter s h
      refine ⟨_, runLoop_of_break joint ml emStep maxiter fuel s (by rw [hb]), ?_, ?_⟩
      · rw [hb]
      · intro hle
        rw [hb]
        show s.steps + s.iter ≤ s.steps + maxiter
        omega
    · obtain ⟨hc, hle, hlt⟩ := h
      have hb := runBody_of_counter joint ml emStep maxiter s (s.iter + 1) hc (by omega)
      rw [runLoop_of_next joint ml emStep maxiter fuel s (by rw [hb]), hb]
      obtain ⟨final, hf, hfi, hfs⟩ := ih
        { info := emStep (joint s.info), iter := s.iter + 1, prev_ML := ml (joint s.info),
          steps := s.steps + 1 } hlt (by show maxiter + 1 ≤ s.iter + 1 + fuel; omega)
        (by omega)
      refine ⟨final, hf, hfi, fun _ => ?_⟩
      have := hfs hle
      simp only [] at this
      omega

theorem runLoop_noStop (joint : σ → σ) (ml : σ → α) (emStep : σ → σ) (maxiter : Nat)
    (st0 : σ) (hno : NoStop joint ml emStep st0 (min maxiter (UINT_MAX - 1))) :
    ∀ (d : Nat) (s : RunState σ α), s.iter + d = min maxiter (UINT_MAX - 1) →
      s.info = (fun x => emStep (joint x))^[s.iter] st0 →
      (0 < s.iter → s.prev_ML = mlSequence joint ml emStep st0 (s.iter - 1)) →
      ∀ e, ∃ final, runLoop joint ml emStep maxiter (d + 1 + e) s = some final ∧
        final.steps = s.steps + d ∧ final.iter = UINT_MAX := by
  have hU : UINT_MAX = 4294967295 := rfl
  intro d
  induction d with
  | zero =>
    intro s hd hinfo hprev e
    have hcont : s.iter = 0 ∨ stopTest (ml (joint s.info)) s.prev_ML = false := by
      rcases Nat.eq_zero_or_pos s.iter with h | h
      · exact Or.inl h
      · right
        have := hno (s.iter - 1) (by omega)
        rw [Nat.sub_add_cancel h] at this
        rw [hprev h, hinfo]
        exact this
    have hc := coordinatorIter_of_continue s.iter maxiter s.prev_ML (ml (joint s.info)) hcont
      (by unfold UINT_SIZE; omega)
    rw [if_pos (by omega)] at hc
    have hb := runBody_of_sentinel joint ml emStep maxiter s hc
    have he : 0 + 1 + e = e + 1 := by omega
    rw [he]
    refine ⟨_, runLoop_of_break joint ml emStep maxiter e s (by rw [hb]), ?_, ?_⟩
    · rw [hb]
      rfl
    · rw [hb]
  | succ d ih =>
    intro s hd hinfo hprev e
    have hcont : s.iter = 0 ∨ stopTest (ml (joint s.info)) s.prev_ML = false := by
      rcases Nat.eq_zero_or_pos s.iter with h | h
      · exact Or.inl h
      · right
        have := hno (s.iter - 1) (by omega)
        rw [Nat.sub_add_cancel h] at this
        rw [hprev h, hinfo]
        exact this
    have hc := coordinatorIter_of_continue s.iter maxiter s.prev_ML (ml (joint s.info)) hcont
      (by unfold UINT_SIZE; omega)
    rw [if_neg (by omega)] at hc
    have hb := runBody_of_counter joint ml emStep maxiter s (s.iter + 1) hc (by omega)
    have he : d + 1 + 1 + e = (d + 1 + e) + 1 := by omega
    rw [he, runLoop_of_next joint ml emStep maxiter (d + 1 + e) s (by rw [hb]), hb]
    obtain ⟨final, hf, hfs, hfi⟩ := ih
      { info := emStep (joint s.info), iter := s.iter + 1, prev_ML := ml (joint s.info),
        steps := s.steps + 1 } (by show s.iter + 1 + d = _; omega)
      (by
        show emStep (joint s.info) = (fun x => emStep (joint x))^[s.iter + 1] st0
        rw [Function.iterate_succ_apply', ← hinfo])
      (by
        intro _
        show ml (joint s.info) = mlSequence joint ml emStep st0 (s.iter + 1 - 1)
        rw [Nat.add_sub_cancel, hinfo]
        rfl) e
    refine ⟨final, hf, ?_, hfi⟩
    rw [hfs]
    show s.steps + 1 + d = s.steps + (d + 1)
    omega

theorem runLoop_steps (joint : σ → σ) (ml : σ → α) (emStep : σ → σ) (maxiter : Nat)
    (st0 : σ) (prev0 : α) (hno : NoStop joint ml emStep st0 (min maxiter (UINT_MAX - 1)))
    (fuel : Nat) (hfuel : min maxiter (UINT_MAX - 1) + 1 ≤ fuel) :
    ∃ final, runLoop joint ml emStep maxiter fuel
        { info := st0, iter := 0, prev_ML := prev0, steps := 0 } = some final ∧
      final.steps = min maxiter (UINT_MAX - 1) ∧ final.iter = UINT_MAX := by
  obtain ⟨final, hf, hs, hi⟩ := runLoop_noStop joint ml emStep maxiter st0 hno
    (min maxiter (UINT_MAX - 1)) { info := st0, iter := 0, prev_ML := prev0, steps := 0 }
    (by show 0 + _ = _; omega) rfl (fun h => absurd h (Nat.lt_irrefl 0))
    (fuel - (min maxiter (UINT_MAX - 1) + 1))
  have he : min maxiter (UINT_MAX - 1) + 1 + (fuel - (min maxiter (UINT_MAX - 1) + 1)) = fuel := by
    omega
  rw [he] at hf
  refine ⟨final, hf, ?_, hi⟩
  rw [hs]
  show 0 + _ = _
  omega

theorem runBody_monotone (joint : σ → σ) (ml : σ → α) (emStep : σ → σ) (maxiter : Nat)
    (s : RunState σ α) (hi : s.iter ≤ UINT_MAX) :
    s.iter ≤ (runBody joint ml emStep maxiter s).2.iter := by
  rw [runBody_iter]
  rcases Nat.lt_or_ge s.iter UINT_MAX with h | h
  · rcases coordinatorIter_cases s.iter maxiter s.prev_ML (ml (joint s.info)) h with hc | hc
    · rw [hc]
      exact hi
    · rw [hc.1]
      omega
  · have he : s.iter = UINT_MAX := by omega
    rw [he, coordinatorIter_sentinel]

end RunTermination
theorem halving_negative (t : Nat) : ((fun x : ℚ => id x / 2)^[t] (-1)) < 0 := by
  induction t with
  | zero => norm_num
  | succ t ih =>
    rw [Function.iterate_succ_apply']
    generalize ((fun x : ℚ => id x / 2)^[t] (-1)) = y at ih
    show y / 2 < 0
    linarith

theorem halving_noStop (n : Nat) : NoStop id id (fun s : ℚ => s / 2) (-1) n := by
  intro t _
  unfold mlSequence
  rw [Function.iterate_succ_apply']
  have hneg := halving_negative t
  generalize ((fun x : ℚ => id x / 2)^[t] (-1)) = x at hneg
  have hx : x ≠ 0 := ne_of_lt hneg
  have hrc : (x / 2 - x) / x * 100 * -1 = 50 := by
    field_simp
    ring
  simp only [id, stopTest, convergenceTest, relativeChange, if_neg hx, hrc, DBL_LESS, ML_DELTA,
    DBL_EPSILON, Bool.or_eq_false_iff, decide_eq_false_iff_not]
  constructor
  · linarith
  · norm_num

/-- C15 (as stated) fails at `maxiter = UINT_MAX`: with log-likelihood values
`-1, -1/2, -1/4, ...` neither test ever fires, and the loop stops after
`4294967294` executions of the EM step, one fewer than `maxiter`, because the
incremented counter meets the sentinel. -/
theorem run_steps_at_uint_max :
    NoStop id id (fun s : ℚ => s / 2) halvingState.info UINT_MAX ∧
    ∃ final, runLoop id id (fun s : ℚ => s / 2) UINT_MAX (UINT_MAX + 1) halvingState
        = some final ∧
      final.steps = 4294967294 ∧ final.steps ≠ UINT_MAX := by
  refine ⟨halving_noStop UINT_MAX, ?_⟩
  obtain ⟨final, hf, hs, _⟩ := runLoop_steps id id (fun s : ℚ => s / 2) UINT_MAX (-1) 0
    (halving_noStop _) (UINT_MAX + 1) (by decide)
  refine ⟨final, hf, ?_, ?_⟩
  · rw [hs]
    decide
  · rw [hs]
    decide

section RunTerminationClaim

variable {α : Type} [LinearOrderedField α] {σ : Type}

/-- C15 (amended): for every `maxiter` and every sequence of log-likelihood
values the iteration loop of `run` terminates within `maxiter + 1` passes with
the counter at the sentinel; the counter never decreases in a pass, after a pass
it is either at most `maxiter` or the sentinel, and `applyEMStep` is executed at
most `maxiter` times, exactly `maxiter` times when `maxiter < UINT_MAX` and
neither the convergence nor the divergence test fires. -/
theorem run_terminates (joint : σ → σ) (ml : σ → α) (emStep : σ → σ) (maxiter : Nat)
    (st0 : σ) (prev0 : α) :
    (∃ final, runLoop joint ml emStep maxiter (maxiter + 1)
        { info := st0, iter := 0, prev_ML := prev0, steps := 0 } = some final ∧
      final.iter = UINT_MAX ∧ final.steps ≤ maxiter ∧
      (maxiter < UINT_MAX → NoStop joint ml emStep st0 maxiter → final.steps = maxiter)) ∧
    (∀ s : RunState σ α, s.iter ≤ UINT_MAX →
      s.iter ≤ (runBody joint ml emStep maxiter s).2.iter) ∧
    (∀ s : RunState σ α, (runBody joint ml emStep maxiter s).2.iter ≤ maxiter ∨
      (runBody joint ml emStep maxiter s).2.iter = UINT_MAX) ∧
    (∀ (M : LibM α) (info : INFO α), info.iter = 0 →
      ∃ final, run M info (info.maxiter + 1) = some final ∧ final.iter = UINT_MAX ∧
        final.steps ≤ info.maxiter) := by
  refine ⟨?_, fun s hs => runBody_monotone joint ml emStep maxiter s hs, fun s => ?_,
    fun M info h0 => ?_⟩
  · obtain ⟨final, hf, hi, hs⟩ := runLoop_total joint ml emStep maxiter (maxiter + 1)
      { info := st0, iter := 0, prev_ML := prev0, steps := 0 } (show 0 < UINT_MAX by decide)
      (by show maxiter + 1 ≤ 0 + (maxiter + 1); omega) (by omega)
    refine ⟨final, hf, hi, ?_, fun hlt hno => ?_⟩
    · have := hs (Nat.zero_le _)
      simp only [] at this
      omega
    · have hmin : min maxiter (UINT_MAX - 1) = maxiter := by
        unfold UINT_MAX at hlt ⊢
        omega
      obtain ⟨final', hf', hs', _⟩ := runLoop_steps joint ml emStep maxiter st0 prev0
        (by rw [hmin]; exact hno) (maxiter + 1) (by rw [hmin])
      rw [hf] at hf'
      rw [Option.some.inj hf', hs', hmin]
  · rw [runBody_iter]
    exact coordinatorIter_ceiling _ _ _ _
  · unfold run
    rw [h0]
    obtain ⟨final, hf, hi, hs⟩ := runLoop_total (fun s => calculateProbW1W2 M s (fun _ _ => 0))
      (calculateML M) (emIteration M) info.maxiter (info.maxiter + 1)
      { info := info, iter := 0, prev_ML := 0, steps := 0 } (show 0 < UINT_MAX by decide)
      (by show info.maxiter + 1 ≤ 0 + (info.maxiter + 1); omega) (by omega)
    refine ⟨final, hf, hi, ?_⟩
    have := hs (Nat.zero_le _)
    simp only [] at this
    omega

end RunTerminationClaim

/-! ## Settings and start-up -/

section SettingsClaims

variable {α : Type}

theorem checkSettings_true_iff (info : INFO α) :
    (checkSettings info).1 = true ↔
      info.co_fn ≠ none ∧ info.maxiter ≠ 0 ∧ info.num_clusters ≠ 0 ∧
      info.num_clusters < MAX_CLUSTERS ∧ info.base_fn ≠ none := by
  unfold checkSettings
  cases hco : info.co_fn <;> cases hb : info.base_fn <;>
    by_cases hm : info.maxiter = 0 <;> by_cases hk : info.num_clusters = 0 <;>
    by_cases hK : info.num_clusters ≥ MAX_CLUSTERS <;>
    (simp [hm, hk, hK]; try omega)

theorem checkSettings_num_clusters (info : INFO α) (h : (checkSettings info).1 = true) :
    (checkSettings info).2.num_clusters = max info.num_clusters info.world_size := by
  obtain ⟨h1, h2, h3, h4, h5⟩ := (checkSettings_true_iff info).mp h
  unfold checkSettings
  have h1' : info.co_fn.isNone = false := by
    cases hco : info.co_fn
    · exact absurd hco h1
    · rfl
  have h5' : info.base_fn.isNone = false := by
    cases hb : info.base_fn
    · exact absurd hb h5
    · rfl
  simp only [h1', h5', Bool.false_eq_true, if_false, if_neg h2, if_neg h3, ge_iff_le,
    if_neg (Nat.not_le.mpr h4)]
  by_cases hw : info.world_size > info.num_clusters
  · rw [if_pos hw]
    show info.world_size = _
    omega
  · rw [if_neg hw]
    omega

/-- C18: `checkSettings` returns false if and only if the co-occurrence
filename is missing, the base filename is missing, `num_clusters` is 0,
`maxiter` is 0, or `num_clusters >= MAX_CLUSTERS`; in every other case it
returns true. -/
theorem checkSettings_false_iff (info : INFO α) :
    ((checkSettings info).1 = false ↔
      info.co_fn = none ∨ info.base_fn = none ∨ info.num_clusters = 0 ∨ info.maxiter = 0 ∨
      info.num_clusters ≥ MAX_CLUSTERS) ∧
    ((checkSettings info).1 = true ↔
      ¬ (info.co_fn = none ∨ info.base_fn = none ∨ info.num_clusters = 0 ∨ info.maxiter = 0 ∨
        info.num_clusters ≥ MAX_CLUSTERS)) := by
  have h := checkSettings_true_iff info
  constructor
  · rw [← Bool.not_eq_true, h]
    constructor
    · intro hn
      by_contra hc
      push_neg at hc
      exact hn ⟨hc.1, hc.2.2.2.1, hc.2.2.1, hc.2.2.2.2, hc.2.1⟩
    · rintro (h1 | h1 | h1 | h1 | h1) ⟨a, b, c, d, e⟩
      · exact a h1
      · exact e h1
      · exact c h1
      · exact b h1
      · omega
  · rw [h]
    constructor
    · rintro ⟨a, b, c, d, e⟩ (h1 | h1 | h1 | h1 | h1)
      · exact a h1
      · exact e h1
      · exact c h1
      · exact b h1
      · omega
    · intro hc
      push_neg at hc
      exact ⟨hc.1, hc.2.2.2.1, hc.2.2.1, hc.2.2.2.2, hc.2.1⟩

/-- C19 (the code departs from it): whenever `processOptions` returns and
`checkSettings` then returns false, `main` prints usage and never calls `run`,
but the process ends through `usage` with status `EXIT_SUCCESS`, which is
zero. -/
theorem main_invalid_exits_success (HAVE_OPENMP : Bool) (argv : List Opt) (info info1 : INFO α)
    (ok : Bool) (hp : processOptions HAVE_OPENMP argv info = .ok (ok, info1))
    (hc : (checkSettings info1).1 = false) :
    main HAVE_OPENMP argv info
      = { status := 0, usage_printed := true, run_called := false } := by
  unfold main
  rw [hp]
  simp only [hc, Bool.not_false, Bool.or_true, if_true]
  rfl

/-- C20 (amended): whenever `checkSettings` returns true, the requested
`num_clusters` is at least 1 and below `MAX_CLUSTERS`, `maxiter` is at least 1,
the resulting `num_clusters` is the larger of the requested value and
`world_size`, so it is below `MAX_CLUSTERS` when `world_size` does not exceed
the requested value, and then for every iteration up to `maxiter` that is at
most 429496, every `messageKind <= 5` and every `clusterIndex` below the
resulting `num_clusters`, the tag is computed without unsigned wrap-around. -/
theorem checkSettings_validates (info : INFO α) (h : (checkSettings info).1 = true) :
    1 ≤ info.num_clusters ∧ info.num_clusters < MAX_CLUSTERS ∧ 1 ≤ info.maxiter ∧
    (checkSettings info).2.num_clusters = max info.num_clusters info.world_size ∧
    (info.world_size ≤ info.num_clusters →
      (checkSettings info).2.num_clusters < MAX_CLUSTERS ∧
      ∀ X Y Z, X ≤ info.maxiter → X ≤ 429496 → Y ≤ 5 →
        Z < (checkSettings info).2.num_clusters →
        MSG_TAG X Y Z = X * 10000 + Y * MAX_CLUSTERS + Z) := by
  obtain ⟨_, h2, h3, h4, _⟩ := (checkSettings_true_iff info).mp h
  have hn := checkSettings_num_clusters info h
  refine ⟨by omega, h4, by omega, hn, fun hw => ?_⟩
  have hK : (checkSettings info).2.num_clusters < MAX_CLUSTERS := by
    rw [hn]
    omega
  refine ⟨hK, fun X Y Z _ hX hY hZ => ?_⟩
  unfold MAX_CLUSTERS at hK
  unfold MSG_TAG MAX_CLUSTERS UINT_SIZE
  exact Nat.mod_eq_of_lt (by omega)

end SettingsClaims

/-- The command line without `--clusters` is rejected by `checkSettings`. -/
theorem main_invalid_exits_success_witness :
    (∃ info1, processOptions false missingClustersArgs (sampleInfo ℚ) = .ok (true, info1) ∧
      (checkSettings info1).1 = false) ∧
    main false missingClustersArgs (sampleInfo ℚ)
      = { status := 0, usage_printed := true, run_called := false } :=
  ⟨⟨_, rfl, rfl⟩, main_invalid_exits_success false missingClustersArgs (sampleInfo ℚ) _ true rfl rfl⟩

/-- C20 (as stated) fails: `checkSettings` accepts 999 clusters with a million
iterations, although the tag of iteration 429497, kind 1, cluster 296 wraps
around to the tag of iteration 0, kind 4, cluster 0; and it accepts two
clusters on 1500 workers, which leaves `num_clusters` at 1500. -/
theorem checkSettings_accepts_wrapping :
    ((checkSettings longRunSettings).1 = true ∧
      (checkSettings longRunSettings).2.num_clusters = 999 ∧
      429497 ≤ longRunSettings.maxiter ∧
      MSG_TAG 429497 1 296 ≠ 429497 * 10000 + 1 * MAX_CLUSTERS + 296 ∧
      MSG_TAG 429497 1 296 = MSG_TAG 0 4 0) ∧
    ((checkSettings crowdedSettings).1 = true ∧
      ¬ (checkSettings crowdedSettings).2.num_clusters < MAX_CLUSTERS) := by
  refine ⟨⟨rfl, rfl, by decide, by decide, by decide⟩, rfl, ?_⟩
  show ¬ (1500 < MAX_CLUSTERS)
  decide

/-- The settings with two clusters and ten iterations are accepted. -/
theorem checkSettings_validates_witness :
    (checkSettings validSettings).1 = true ∧
    1 ≤ validSettings.num_clusters ∧ validSettings.num_clusters < MAX_CLUSTERS ∧
    1 ≤ validSettings.maxiter ∧
    (checkSettings validSettings).2.num_clusters
      = max validSettings.num_clusters validSettings.world_size ∧
    (validSettings.world_size ≤ validSettings.num_clusters →
      (checkSettings validSettings).2.num_clusters < MAX_CLUSTERS ∧
      ∀ X Y Z, X ≤ validSettings.maxiter → X ≤ 429496 → Y ≤ 5 →
        Z < (checkSettings validSettings).2.num_clusters →
        MSG_TAG X Y Z = X * 10000 + Y * MAX_CLUSTERS + Z) :=
  ⟨rfl, checkSettings_validates validSettings rfl⟩

/-! ## The probability mass of the joint matrix -/

section World

variable {α : Type}

variable [LinearOrderedField α]

end World

section JointCongr

variable {α : Type}

end JointCongr

section BlockFields

variable {α : Type}

theorem processOption_world (H : Bool) (info info' : INFO α) (opt : Opt)
    (h : processOption H info opt = .ok info') :
    info'.world_id = info.world_id ∧ info'.world_size = info.world_size := by
  cases opt <;> simp only [processOption] at h
  case openmp v =>
    split_ifs at h
    cases h
    exact ⟨rfl, rfl⟩
  all_goals
    cases h <;> exact ⟨rfl, rfl⟩

theorem foldlM_processOption_world (H : Bool) (argv : List Opt) :
    ∀ (info info' : INFO α), argv.foldlM (processOption H) info = .ok info' →
      info'.world_id = info.world_id ∧ info'.world_size = info.world_size := by
  induction argv with
  | nil =>
    intro info info' h
    cases h
    exact ⟨rfl, rfl⟩
  | cons opt argv ih =>
    intro info info' h
    rw [List.foldlM_cons] at h
    cases hopt : processOption H info opt with
    | error e =>
      rw [hopt] at h
      cases h
    | ok info1 =>
      rw [hopt] at h
      obtain ⟨h1, h2⟩ := ih info1 info' h
      obtain ⟨h3, h4⟩ := processOption_world H info info1 opt hopt
      exact ⟨h1.trans h3, h2.trans h4⟩

/-- What `processOptions` returns: it returns true, keeps the worker id and
the worker count, and stores the three block macros of the parsed cluster
count. -/
theorem processOptions_fields (H : Bool) (argv : List Opt) (info info1 : INFO α) (ok : Bool)
    (h : processOptions H argv info = .ok (ok, info1)) :
    ok = true ∧ info1.world_id = info.world_id ∧ info1.world_size = info.world_size ∧
    info1.block_start = BLOCK_LOW info1.world_id info1.world_size info1.num_clusters ∧
    info1.block_end = BLOCK_HIGH info1.world_id info1.world_size info1.num_clusters ∧
    info1.block_size = BLOCK_SIZE info1.world_id info1.world_size info1.num_clusters := by
  unfold processOptions at h
  split_ifs at h
  split at h
  · cases h
  · rename_i info2 hfold
    obtain ⟨h1, h2⟩ := foldlM_processOption_world H argv _ info2 hfold
    cases h
    exact ⟨rfl, h1, h2, rfl, rfl, rfl⟩

end BlockFields

theorem block_size_sub {i p n : Nat} (hp : 1 ≤ p) (hi : i < p) (hpn : p * n < UINT_SIZE) :
    BLOCK_SIZE i p n = (i + 1) * n / p - i * n / p := by
  have h := BLOCK_SIZE_of_lt hp hi hpn
  rw [BLOCK_LOW_of_le (le_of_lt hi) hpn,
    BLOCK_LOW_of_le (show i + 1 ≤ p from hi) hpn] at h
  omega

theorem block_size_floor_or_succ {i p n : Nat} (hp : 1 ≤ p) (hi : i < p)
    (hpn : p * n < UINT_SIZE) :
    BLOCK_SIZE i p n = n / p ∨
      (BLOCK_SIZE i p n = n / p + 1 ∧ (n + p - 1) / p = n / p + 1) := by
  rw [block_size_sub hp hi hpn]
  have hsplit : (i + 1) * n = i * n + n := Nat.succ_mul i n
  rw [hsplit, Nat.add_div hp]
  have hm : i * n % p < p := Nat.mod_lt _ hp
  have hr' : n % p < p := Nat.mod_lt _ hp
  generalize i * n / p = a
  generalize hq : n / p = q
  by_cases hc : p ≤ i * n % p + n % p
  · right
    rw [if_pos hc]
    refine ⟨by omega, ?_⟩
    have e1 : n + p - 1 = n + (p - 1) := by omega
    rw [e1, Nat.add_div hp, Nat.div_eq_of_lt (show p - 1 < p by omega),
      Nat.mod_eq_of_lt (show p - 1 < p by omega), if_pos (by omega), hq]
  · left
    rw [if_neg hc]
    omega

theorem ceil_div_bounds (n p : Nat) (hp : 1 ≤ p) :
    n / p ≤ (n + p - 1) / p ∧ (n + p - 1) / p ≤ n / p + 1 := by
  constructor
  · exact Nat.div_le_div_right (by omega)
  · have h : n + p - 1 ≤ n + p := Nat.sub_le _ _
    calc (n + p - 1) / p ≤ (n + p) / p := Nat.div_le_div_right h
      _ = n / p + 1 := Nat.add_div_right n hp

theorem block_nonempty {i p n : Nat} (hp : 1 ≤ p) (hi : i < p) (hn : p ≤ n)
    (hpn : p * n < UINT_SIZE) : 1 ≤ BLOCK_SIZE i p n := by
  rw [block_size_sub hp hi hpn]
  have hsplit : (i + 1) * n = i * n + n := Nat.succ_mul i n
  have h1 : (i * n + p) / p ≤ (i * n + n) / p := Nat.div_le_div_right (by omega)
  rw [Nat.add_div_right _ hp] at h1
  rw [hsplit]
  generalize (i * n + n) / p = b at h1 ⊢
  generalize i * n / p = a at h1 ⊢
  omega

/-- C23 (amended): for every `p >= 1`, `n >= 1` whose product is below `2^32`
and every worker `i < p`, `BLOCK_SIZE(i,p,n)` is `floor(n/p)` or `ceil(n/p)`,
so the block sizes of any two workers differ by at most 1, and every block is
non-empty when `n >= p`. -/
theorem block_size_even (p n i : Nat) (hp : 1 ≤ p) (_hn : 1 ≤ n) (hi : i < p)
    (hpn : p * n < UINT_SIZE) :
    (BLOCK_SIZE i p n = n / p ∨ BLOCK_SIZE i p n = (n + p - 1) / p) ∧
    (∀ j, j < p → BLOCK_SIZE i p n ≤ BLOCK_SIZE j p n + 1 ∧
      BLOCK_SIZE j p n ≤ BLOCK_SIZE i p n + 1) ∧
    (p ≤ n → 1 ≤ BLOCK_SIZE i p n) := by
  refine ⟨?_, fun j hj => ?_, fun hn => block_nonempty hp hi hn hpn⟩
  · rcases block_size_floor_or_succ hp hi hpn with h | ⟨h, hc⟩
    · exact Or.inl h
    · exact Or.inr (h.trans hc.symm)
  · rcases block_size_floor_or_succ hp hi hpn with h | ⟨h, _⟩ <;>
      rcases block_size_floor_or_succ hp hj hpn with h' | ⟨h', _⟩ <;>
      constructor <;> omega

/-- Three workers and ten clusters: worker 2 owns four clusters. -/
theorem block_size_even_witness :
    (1 ≤ 3 ∧ 1 ≤ 10 ∧ 2 < 3 ∧ 3 * 10 < UINT_SIZE) ∧
    (BLOCK_SIZE 2 3 10 = 10 / 3 ∨ BLOCK_SIZE 2 3 10 = (10 + 3 - 1) / 3) ∧
    (∀ j, j < 3 → BLOCK_SIZE 2 3 10 ≤ BLOCK_SIZE j 3 10 + 1 ∧
      BLOCK_SIZE j 3 10 ≤ BLOCK_SIZE 2 3 10 + 1) ∧
    (3 ≤ 10 → 1 ≤ BLOCK_SIZE 2 3 10) :=
  ⟨by decide, block_size_even 3 10 2 (by decide) (by decide) (by decide) (by decide)⟩

/-- C23 fails as stated: with `p = 5` workers and `n = 1000000000` clusters the
product `5 * n` wraps, and `BLOCK_SIZE(4,5,n)` is `3635973836`, neither
`floor(n/p)` nor `ceil(n/p)`, which are both `200000000`. -/
theorem block_size_wraps :
    (1 ≤ 5 ∧ 1 ≤ 1000000000 ∧ 4 < 5) ∧
    BLOCK_SIZE 4 5 1000000000 = 3635973836 ∧
    BLOCK_SIZE 4 5 1000000000 ≠ 1000000000 / 5 ∧
    BLOCK_SIZE 4 5 1000000000 ≠ (1000000000 + 5 - 1) / 5 := by
  refine ⟨by decide, by decide, by decide, by decide⟩

section BlockRange

variable {α : Type}

/-- C22 (amended): for every worker id `i < p` with `n >= p >= 1` and
`p * n < 2^32`, `processOptions` keeps the worker id and the worker count and
sets the block fields to the closed range `[block_start, block_end]`:
`block_start = floor(i*n/p)`, `block_end = floor((i+1)*n/p) - 1` (the last
owned cluster, not one past it), `block_start <= block_end`, and
`block_size = block_end - block_start + 1 = floor((i+1)*n/p) - floor(i*n/p)`. -/
theorem processOptions_block_range (H : Bool) (argv : List Opt) (info info1 : INFO α)
    (ok : Bool) (h : processOptions H argv info = .ok (ok, info1))
    (hp : 1 ≤ info1.world_size) (hi : info1.world_id < info1.world_size)
    (hn : info1.world_size ≤ info1.num_clusters)
    (hpn : info1.world_size * info1.num_clusters < UINT_SIZE) :
    info1.world_id = info.world_id ∧ info1.world_size = info.world_size ∧
    info1.block_start = info1.world_id * info1.num_clusters / info1.world_size ∧
    info1.block_end = (info1.world_id + 1) * info1.num_clusters / info1.world_size - 1 ∧
    info1.block_start ≤ info1.block_end ∧
    info1.block_size = info1.block_end - info1.block_start + 1 ∧
    info1.block_size = (info1.world_id + 1) * info1.num_clusters / info1.world_size
      - info1.world_id * info1.num_clusters / info1.world_size := by
  obtain ⟨_, h1, h2, h3, h4, h5⟩ := processOptions_fields H argv info info1 ok h
  have hs := block_size_sub hp hi hpn
  have hne := block_nonempty hp hi hn hpn
  have hlow := BLOCK_LOW_of_le (le_of_lt hi) hpn
  have hnext := BLOCK_LOW_of_le (show info1.world_id + 1 ≤ info1.world_size from hi) hpn
  have hle : BLOCK_LOW (info1.world_id + 1) info1.world_size info1.num_clusters
      ≤ info1.num_clusters := BLOCK_LOW_le_n hp hi hpn
  have hlt : info1.num_clusters < UINT_SIZE :=
    lt_of_le_of_lt (Nat.le_mul_of_pos_left _ hp) hpn
  have hhigh : BLOCK_HIGH info1.world_id info1.world_size info1.num_clusters
      = (info1.world_id + 1) * info1.num_clusters / info1.world_size - 1 := by
    unfold BLOCK_HIGH
    rw [hnext] at hle ⊢
    have h6 : (info1.world_id + 1) * info1.num_clusters / info1.world_size + UINT_SIZE - 1
        = ((info1.world_id + 1) * info1.num_clusters / info1.world_size - 1) + UINT_SIZE := by
      omega
    rw [h6, Nat.add_mod_right, Nat.mod_eq_of_lt (by omega)]
  rw [h3, h4, h5, hhigh, hlow, hs]
  rw [hs] at hne
  refine ⟨h1, h2, rfl, rfl, ?_, ?_, rfl⟩ <;> omega

end BlockRange

/-- Worker 1 of 2 with four clusters: the closed range `[2, 3]`. -/
theorem processOptions_block_range_witness :
    (∃ info1 : INFO ℚ,
      processOptions false [Opt.clusters 4] (workerStart 1 2) = .ok (true, info1) ∧
      1 ≤ info1.world_size ∧ info1.world_id < info1.world_size ∧
      info1.world_size ≤ info1.num_clusters ∧
      info1.world_size * info1.num_clusters < UINT_SIZE ∧
      info1.block_start = 2 ∧ info1.block_end = 3 ∧ info1.block_size = 2) ∧
    (∀ info1 : INFO ℚ,
      processOptions false [Opt.clusters 4] (workerStart 1 2) = .ok (true, info1) →
      info1.block_size = info1.block_end - info1.block_start + 1) :=
  ⟨⟨_, rfl, by decide, by decide, by decide, by decide, rfl, rfl, rfl⟩,
    fun info1 h => (processOptions_block_range false [Opt.clusters 4] (workerStart 1 2) info1
      true h (by cases h; decide) (by cases h; decide) (by cases h; decide)
      (by cases h; decide)).2.2.2.2.2.1⟩

/-- C22 fails as stated: for the single worker with two clusters `block_end` is
`1`, the last owned cluster, not `floor((0+1)*2/1) = 2`, and `block_size = 2`
is not `block_end - block_start = 1`. -/
theorem block_end_is_last_cluster :
    ∃ info1 : INFO ℚ,
      processOptions false twoClustersArgs (workerStart 0 1) = .ok (true, info1) ∧
      (info1.world_id < info1.world_size ∧ 1 ≤ info1.world_size ∧
        info1.world_size ≤ info1.num_clusters) ∧
      info1.block_start = 0 ∧ info1.block_end = 1 ∧
      info1.block_end ≠ (info1.world_id + 1) * info1.num_clusters / info1.world_size ∧
      info1.block_size = 2 ∧ info1.block_size ≠ info1.block_end - info1.block_start :=
  ⟨_, rfl, by decide, rfl, rfl, by decide, rfl, by decide⟩

/-- C21 (the code departs from it): three workers started with two requested
clusters are all accepted with `num_clusters` raised to 3, but their stored
ranges are still those of two clusters, `[0,0)`, `[0,1)` and `[1,2)`: cluster 2
lies in no stored range, and its owner `BLOCK_OWNER(2,3,3) = 2` stores
`[1,2)`. -/
theorem stored_blocks_stale_after_raise :
    ∃ i0 i1 i2 : INFO ℚ,
      (acceptedSettings false twoClustersArgs (workerStart 0 3) = some i0 ∧
        acceptedSettings false twoClustersArgs (workerStart 1 3) = some i1 ∧
        acceptedSettings false twoClustersArgs (workerStart 2 3) = some i2) ∧
      (i0.num_clusters = 3 ∧ i1.num_clusters = 3 ∧ i2.num_clusters = 3) ∧
      ((i0.block_start = 0 ∧ i0.block_size = 0) ∧ (i1.block_start = 0 ∧ i1.block_size = 1) ∧
        (i2.block_start = 1 ∧ i2.block_size = 1)) ∧
      (¬ InStoredRange i0 2 ∧ ¬ InStoredRange i1 2 ∧ ¬ InStoredRange i2 2) ∧
      BLOCK_OWNER 2 i2.world_size i2.num_clusters = 2 :=
  ⟨_, _, _, ⟨rfl, rfl, rfl⟩, ⟨rfl, rfl, rfl⟩, ⟨⟨rfl, rfl⟩, ⟨rfl, rfl⟩, ⟨rfl, rfl⟩⟩,
    ⟨by decide, by decide, by decide⟩, by decide⟩

/-- C28 (the code departs from it): the command line with `--snapshot 0` is
accepted by `processOptions` and `checkSettings`, the first pass of the loop
sets the counter to 1 and goes on to the EM step, and the snapshot test that
follows evaluates `1 % 0`: zero is not the sentinel `UINT_MAX`, so the guard
lets it through. -/
theorem snapshot_zero_reaches_modulo :
    ∃ info : INFO ℚ,
      acceptedSettings false snapshotZeroArgs (workerStart 0 1) = some info ∧
      info.snapshot = 0 ∧ info.snapshot ≠ UINT_MAX ∧
      (∀ prev_ML curr_ML : ℚ, coordinatorIter 0 info.maxiter prev_ML curr_ML = 1) ∧
      snapshotTest { info with iter := 1 } = none ∧
      ∀ iter, snapshotTest { info with iter := iter } = none := by
  refine ⟨_, rfl, rfl, by decide, fun p c => ?_, rfl, fun _ => rfl⟩
  rw [coordinatorIter_of_continue 0 _ p c (Or.inl rfl) (by decide)]
  rfl

/-! ## `applyEMStep`: untouched entries and the order of the clusters -/

section Untouched

variable {α : Type} [LinearOrderedField α]

end Untouched

section ClusterOrder

variable {α : Type} [LinearOrderedField α]

end ClusterOrder

section OrderClaim


variable {α : Type} [LinearOrderedField α]

end OrderClaim
section OrderClaimMain

variable {α : Type} [LinearOrderedField α]

end OrderClaimMain

/-! ## Exchange of the tables between processes -/

section ExchangeBasics

variable {α : Type}

end ExchangeBasics
section ExchangeCluster

variable {α : Type}

end ExchangeCluster
section ExchangeLoops

variable {α : Type}

end ExchangeLoops
section ExchangeGather

variable {α : Type}

end ExchangeGather
section ExchangeOwnership

variable {α : Type}

end ExchangeOwnership
section ExchangeClaims

variable {α : Type}

end ExchangeClaims
section RunLikelihood

variable {α : Type} [LinearOrderedField α] {σ : Type}

end RunLikelihood

end PLSA
